import Mathlib

/-!
Verification of the bid-rss-mailer delivery pipeline.

This file gives a shallow embedding, in Lean 4, of the parts of the
`bid_rss_mailer` Python package that the verified claims talk about:
URL/text normalization (`normalize.py`), keyword scoring (`scorer.py`),
the SQLite-backed state store (`storage.py`) modelled relationally, the
pipeline orchestrator (`pipeline.py`), the social-post draft generator
(`x_draft.py`) and the publish state machine (`x_publish.py`).

Modelling conventions:
* Python lists/tuples become Lean `List`s; Python dicts become insertion
  ordered association lists (`List (String × α)`).
* SQLite tables become lists of row structures; the `UNIQUE` constraints
  and `INSERT OR IGNORE` / upsert behaviour are made explicit in the
  operations.
* Timezone-aware `datetime` values are modelled by the pair of their
  POSIX timestamp (an integer; subsecond precision is irrelevant to all
  claims) and their `isoformat()` rendering, since the code only ever
  compares timestamps numerically (scorer) or compares `isoformat`
  strings lexicographically (store queries, purge).
* Fallible operations return `Except`; external collaborators (HTTP
  post, SMTP send, the filesystem) are passed in as explicit values and
  the effects on them are returned, so that "no external call happened"
  is a provable statement.
-/

namespace BidRss

/-- `config.KeywordSetConfig`: one keyword rule bundle. -/
structure KeywordSetConfig where
  id : String
  name : String
  enabled : Bool
  min_required_matches : Nat
  required : List String
  boost : List String
  exclude : List String
  exclude_exceptions : List String
  top_n : Nat
deriving Repr, DecidableEq

/-- An aware `datetime`, modelled by its POSIX timestamp (seconds, as an
integer) together with its `isoformat()` rendering. -/
structure PyDateTime where
  epoch : Int
  iso : String
deriving Repr, DecidableEq

/-- `domain.FeedItem`. -/
structure FeedItem where
  source_id : String
  organization : String
  title : String
  url : String
  published_at : Option PyDateTime
  fetched_at : PyDateTime
  description : String
  deadline_at : Option String
deriving Repr, DecidableEq

/-- `domain.ScoredItem`. -/
structure ScoredItem where
  keyword_set_id : String
  keyword_set_name : String
  item : FeedItem
  score : Nat
  required_matches : List String
  boost_matches : List String
deriving Repr, DecidableEq

/-- `domain.StoredScoredItem`. -/
structure StoredScoredItem where
  item_id : Nat
  scored_item : ScoredItem
deriving Repr, DecidableEq

/-- `dict.get(k, default)` on an insertion-ordered association list. -/
def dictGet (d : List (String × α)) (k : String) (default : α) : α :=
  match d.lookup k with
  | some v => v
  | none => default

/-- `d[k] = v` on an insertion-ordered association list: overwrite in
place if the key is present, else append. -/
def dictSet (d : List (String × α)) (k : String) (v : α) : List (String × α) :=
  if d.any (fun p => p.1 == k) then
    d.map (fun p => if p.1 == k then (p.1, v) else p)
  else
    d ++ [(k, v)]

/-- The loop of `pipeline._apply_total_limit`, with the accumulated
`limited` dict and the `remaining` budget made explicit. -/
def applyTotalLimitGo (selectedBySet : List (String × List StoredScoredItem)) :
    List KeywordSetConfig → Int → List (String × List StoredScoredItem) →
    List (String × List StoredScoredItem)
  | [], _, limited => limited
  | ks :: rest, remaining, limited =>
    if !ks.enabled then
      applyTotalLimitGo selectedBySet rest remaining limited
    else if remaining ≤ 0 then
      applyTotalLimitGo selectedBySet rest remaining (dictSet limited ks.id [])
    else
      let records := dictGet selectedBySet ks.id []
      let limitedRecords := records.take remaining.toNat
      applyTotalLimitGo selectedBySet rest (remaining - limitedRecords.length)
        (dictSet limited ks.id limitedRecords)

/-- `pipeline._apply_total_limit`: distribute the run-wide delivery
budget over the enabled keyword sets in declared order. -/
def applyTotalLimit (selectedBySet : List (String × List StoredScoredItem))
    (keywordSets : List KeywordSetConfig) (maxTotalItems : Int) :
    List (String × List StoredScoredItem) :=
  applyTotalLimitGo selectedBySet keywordSets maxTotalItems []

/-- The enabled keyword sets, in declared order, paired with their
surviving records from `selected_by_set` (empty when absent). -/
def enabledEligible (selectedBySet : List (String × List StoredScoredItem))
    (keywordSets : List KeywordSetConfig) : List (String × List StoredScoredItem) :=
  (keywordSets.filter (fun k => k.enabled)).map
    (fun k => (k.id, dictGet selectedBySet k.id []))

/-- The allocation described by the claim: walk the per-set record lists
in order, give each set as much of the remaining budget as it can use,
and give every set after exhaustion an empty list.  Written from the
spec's words, to be compared with `applyTotalLimit`. -/
def greedyFillSpec : List (String × List α) → Nat → List (String × List α)
  | [], _ => []
  | (k, rs) :: rest, budget =>
    (k, rs.take budget) :: greedyFillSpec rest (budget - (rs.take budget).length)

/-- The keys of an association list. -/
def keysOf (d : List (String × α)) : List String := d.map (fun p => p.1)

/-- A concrete item used by witnesses. -/
def witnessItem : FeedItem :=
  { source_id := "source-1"
    organization := "org"
    title := "title"
    url := "https://example.com/a"
    published_at := none
    fetched_at := { epoch := 1000, iso := "2026-02-16T00:00:00+00:00" }
    description := ""
    deadline_at := none }

/-- A concrete stored scored record used by witnesses. -/
def witnessRecord (itemId : Nat) (score : Nat) : StoredScoredItem :=
  { item_id := itemId
    scored_item :=
      { keyword_set_id := "set-a"
        keyword_set_name := "A"
        item := witnessItem
        score := score
        required_matches := ["a", "b"]
        boost_matches := [] } }

/-- A concrete keyword set used by witnesses. -/
def witnessKeywordSet (kid : String) : KeywordSetConfig :=
  { id := kid
    name := "A"
    enabled := true
    min_required_matches := 2
    required := ["a", "b"]
    boost := ["c"]
    exclude := ["d"]
    exclude_exceptions := []
    top_n := 10 }

/-- A row of the `deliveries` table (`storage.SCHEMA_SQL`); the surrogate
`id` column is irrelevant to every claim and omitted. -/
structure DeliveryRow where
  run_id : String
  keyword_set_id : String
  item_id : Nat
  score : Nat
  delivered_at : String
deriving Repr, DecidableEq

/-- A row of the `items` table (`storage.SCHEMA_SQL`). -/
structure ItemRow where
  id : Nat
  source_id : String
  organization : String
  title : String
  url : String
  url_key : String
  published_at : Option String
  deadline_at : Option String
  fetched_at : String
deriving Repr, DecidableEq

/-- Whether a row violating `UNIQUE(keyword_set_id, item_id)` is already
present. -/
def deliveryConflict (rows : List DeliveryRow) (ksid : String) (itemId : Nat) : Bool :=
  rows.any (fun r => r.keyword_set_id == ksid && r.item_id == itemId)

/-- One `INSERT OR IGNORE INTO deliveries` statement: a conflict on
`UNIQUE(keyword_set_id, item_id)` drops the new row silently. -/
def insertOrIgnoreDelivery (rows : List DeliveryRow) (row : DeliveryRow) : List DeliveryRow :=
  if deliveryConflict rows row.keyword_set_id row.item_id then rows else rows ++ [row]

/-- `SQLiteStore.record_deliveries`: bulk insert-or-ignore of one run's
records for one keyword set, all sharing one timestamp. -/
def recordDeliveries (rows : List DeliveryRow) (runId ksid : String)
    (records : List StoredScoredItem) (timestamp : String) : List DeliveryRow :=
  if records.isEmpty then rows
  else
    records.foldl
      (fun acc record =>
        insertOrIgnoreDelivery acc
          { run_id := runId
            keyword_set_id := ksid
            item_id := record.item_id
            score := record.scored_item.score
            delivered_at := timestamp })
      rows

/-- Number of `deliveries` rows for one `(keyword_set_id, item_id)` pair. -/
def countPair (rows : List DeliveryRow) (ksid : String) (itemId : Nat) : Nat :=
  rows.countP (fun r => r.keyword_set_id == ksid && r.item_id == itemId)

/-- Days in a Gregorian month (`datetime.date` calendar). -/
def daysInMonth (year month : Int) : Int :=
  if month = 2 then
    if year % 4 = 0 ∧ (year % 100 ≠ 0 ∨ year % 400 = 0) then 29 else 28
  else if month = 4 ∨ month = 6 ∨ month = 9 ∨ month = 11 then 30
  else 31

/-- Day count of a proleptic Gregorian date (days since 1970-01-01,
civil-from-days inverse); standard era-based formula. -/
def daysFromCivil (y m d : Int) : Int :=
  let y' := if m ≤ 2 then y - 1 else y
  let era := (if y' ≥ 0 then y' else y' - 399) / 400
  let yoe := y' - era * 400
  let mp := (m + 9) % 12
  let doy := (153 * mp + 2) / 5 + d - 1
  let doe := yoe * 365 + yoe / 4 - yoe / 100 + doy
  era * 146097 + doe - 719468

/-- Inverse of `daysFromCivil`: the civil date of a day count. -/
def civilFromDays (z : Int) : Int × Int × Int :=
  let z' := z + 719468
  let era := (if z' ≥ 0 then z' else z' - 146096) / 146097
  let doe := z' - era * 146097
  let yoe := (doe - doe / 1460 + doe / 36524 - doe / 146096) / 365
  let y := yoe + era * 400
  let doy := doe - (365 * yoe + yoe / 4 - yoe / 100)
  let mp := (5 * doy + 2) / 153
  let d := doy - (153 * mp + 2) / 5 + 1
  let m := if mp < 10 then mp + 3 else mp - 9
  (if m ≤ 2 then y + 1 else y, m, d)

/-- Left-pad the decimal rendering of a nonnegative integer with zeros. -/
def padNum (width : Nat) (n : Int) : String :=
  let s := toString n.toNat
  String.mk (List.replicate (width - s.length) '0') ++ s

/-- Decimal value of a digit sequence. -/
def digitsToNat (l : List Char) : Nat :=
  l.foldl (fun acc c => acc * 10 + (c.toNat - 48)) 0

/-- `(current - timedelta(days=days)).isoformat()` for an aware UTC
`datetime` given by its `isoformat()` string: shifting by whole days
changes only the `YYYY-MM-DD` prefix. -/
def isoMinusDays (iso : String) (days : Int) : String :=
  let cs := iso.data
  let y : Int := (digitsToNat (cs.take 4) : Nat)
  let m : Int := (digitsToNat ((cs.drop 5).take 2) : Nat)
  let d : Int := (digitsToNat ((cs.drop 8).take 2) : Nat)
  let (y', m', d') := civilFromDays (daysFromCivil y m d - days)
  padNum 4 y' ++ "-" ++ padNum 2 m' ++ "-" ++ padNum 2 d' ++
    String.mk (cs.drop 10)

/-- SQLite TEXT comparison of two (ASCII timestamp) strings: strict
lexicographic order on the character sequences. -/
def strLt (a b : String) : Bool := decide (a.data < b.data)

/-- `SQLiteStore.purge_older_than`: raises for a nonpositive retention
window, else deletes the delivery rows below the cutoff and then the
items below the cutoff with no remaining delivery reference, in that
order (the second `DELETE` sees the post-delete `deliveries` table). -/
def purgeOlderThan (items : List ItemRow) (deliveries : List DeliveryRow)
    (days : Int) (now : PyDateTime) : Except String (List ItemRow × List DeliveryRow) :=
  if days ≤ 0 then .error "days must be > 0"
  else
    let cutoff := isoMinusDays now.iso days
    let keptDeliveries := deliveries.filter (fun d => !strLt d.delivered_at cutoff)
    let keptItems := items.filter
      (fun i => !(strLt i.fetched_at cutoff &&
        !(keptDeliveries.any (fun d => d.item_id == i.id))))
    .ok (keptItems, keptDeliveries)

/-- A concrete item row for witnesses. -/
def witnessItemRow (i : Nat) (fetched : String) : ItemRow :=
  { id := i
    source_id := "source-1"
    organization := "org"
    title := "title"
    url := "https://example.com/a"
    url_key := "k"
    published_at := none
    deadline_at := none
    fetched_at := fetched }

/-- `unicodedata.normalize("NFKC", ·)` applied to one character,
restricted to the character repertoire that appears in this
development: NFKC is the identity on ASCII and on ordinary CJK
ideographs/kana, and folds full-width forms (digits, Latin letters,
ideographic space, common full-width punctuation) to their ASCII
compatibility equivalents. -/
def nfkcChar (c : Char) : List Char :=
  let n := c.toNat
  if 0xFF10 ≤ n ∧ n ≤ 0xFF19 then [Char.ofNat (n - 0xFF10 + 0x30)]
  else if 0xFF21 ≤ n ∧ n ≤ 0xFF3A then [Char.ofNat (n - 0xFF21 + 0x41)]
  else if 0xFF41 ≤ n ∧ n ≤ 0xFF5A then [Char.ofNat (n - 0xFF41 + 0x61)]
  else if n = 0x3000 then [' ']
  else if n = 0xFF0E then ['.']
  else if n = 0xFF0F then ['/']
  else if n = 0xFF0D then ['-']
  else if n = 0xFF1A then [':']
  else if n = 0xFF1F then ['?']
  else if n = 0xFF06 then ['&']
  else if n = 0xFF03 then ['#']
  else if n = 0xFF08 then ['(']
  else if n = 0xFF09 then [')']
  else if n = 0x00A0 then [' ']
  else [c]

/-- `str.lower()` restricted to the post-NFKC repertoire: ASCII case
folding (CJK characters are caseless). -/
def pyLower (c : Char) : Char :=
  if 'A' ≤ c ∧ c ≤ 'Z' then Char.ofNat (c.toNat + 32) else c

/-- A `\s` character of the regex `_SPACE_PATTERN`, restricted to the
post-NFKC repertoire (the ASCII whitespace class). -/
def pySpace (c : Char) : Bool :=
  c = ' ' ∨ c = '\t' ∨ c = '\n' ∨ c = '\x0b' ∨ c = '\x0c' ∨ c = '\r'

/-- `_SPACE_PATTERN.sub(" ", ·)`: replace each maximal run of
whitespace by a single space. -/
def collapseSpaces : List Char → List Char
  | [] => []
  | [c] => if pySpace c then [' '] else [c]
  | c1 :: c2 :: rest =>
    if pySpace c1 ∧ pySpace c2 then collapseSpaces (c2 :: rest)
    else (if pySpace c1 then ' ' else c1) :: collapseSpaces (c2 :: rest)

/-- `str.strip()` on the post-NFKC repertoire. -/
def pyStrip (cs : List Char) : List Char :=
  ((cs.dropWhile pySpace).reverse.dropWhile pySpace).reverse

/-- `normalize.normalize_text`: NFKC-fold, lower-case, collapse
whitespace runs to single spaces, trim. -/
def normalize_text (s : String) : String :=
  String.mk (pyStrip (collapseSpaces ((s.data.flatMap nfkcChar).map pyLower)))

/-- Whether `needle` is a prefix of `haystack`. -/
def listStartsWith : List Char → List Char → Bool
  | [], _ => true
  | _ :: _, [] => false
  | a :: as, b :: bs => a == b && listStartsWith as bs

/-- Python's substring test `needle in haystack`. -/
def listContainsSub : List Char → List Char → Bool
  | hay, needle =>
    if listStartsWith needle hay then true
    else
      match hay with
      | [] => false
      | _ :: rest => listContainsSub rest needle

/-- `normalize.contains_term`: `normalize_text(term) in normalized_text`. -/
def contains_term (normalized_text term : String) : Bool :=
  listContainsSub normalized_text.data (normalize_text term).data

/-- `scored.item.published_at.timestamp() if ... else 0.0` in
`scorer._sort_key`. -/
def pubEpoch (s : ScoredItem) : Int :=
  match s.item.published_at with
  | some dt => dt.epoch
  | none => 0

/-- The codomain of `scorer._sort_key`, ordered lexicographically as
Python orders its key tuples. -/
abbrev SortKeyL := Lex (Int × Lex (Int × Lex (Int × Lex (String × String))))

/-- `scorer._sort_key`: `(-score, -published_ts, -fetched_ts,
organization, title)`. -/
def sortKeyL (s : ScoredItem) : SortKeyL :=
  toLex (-(s.score : Int), toLex (-(pubEpoch s), toLex (-(s.item.fetched_at.epoch),
    toLex (s.item.organization, s.item.title))))

/-- The comparison `list.sort(key=_sort_key)` sorts by. -/
def sortLE (a b : ScoredItem) : Prop := sortKeyL a ≤ sortKeyL b

instance : DecidableRel sortLE := fun a b =>
  inferInstanceAs (Decidable (sortKeyL a ≤ sortKeyL b))

instance : IsTotal ScoredItem sortLE := ⟨fun a b => le_total (sortKeyL a) (sortKeyL b)⟩

instance : IsTrans ScoredItem sortLE := ⟨fun _ _ _ hab hbc => le_trans hab hbc⟩

/-- The ordering the claim describes: score descending, published
timestamp descending (missing treated as timestamp zero), fetched
timestamp descending, then organization and title ascending.  Written
from the spec's words, to be compared with `sortLE`. -/
def claimOrder (a b : ScoredItem) : Prop :=
  b.score < a.score ∨ (a.score = b.score ∧
    (pubEpoch b < pubEpoch a ∨ (pubEpoch a = pubEpoch b ∧
      (b.item.fetched_at.epoch < a.item.fetched_at.epoch ∨
        (a.item.fetched_at.epoch = b.item.fetched_at.epoch ∧
          (a.item.organization < b.item.organization ∨
            (a.item.organization = b.item.organization ∧
              a.item.title ≤ b.item.title)))))))

/-- The body of the inner loop of `scorer.score_items`: one
(item, keyword-set) pair is gated and scored, and on survival appended
to its keyword set's result list. -/
def scoreStep (normalizedTitle : String) (item : FeedItem)
    (results : List (String × List ScoredItem)) (k : KeywordSetConfig) :
    List (String × List ScoredItem) :=
  if !k.enabled then results
  else if (k.required.filter (fun t => contains_term normalizedTitle t)).length
      < k.min_required_matches then results
  else if !(k.exclude.filter (fun t => contains_term normalizedTitle t)).isEmpty &&
      !(k.exclude_exceptions.any (fun e => contains_term normalizedTitle e)) then results
  else
    dictSet results k.id (dictGet results k.id [] ++
      [{ keyword_set_id := k.id
         keyword_set_name := k.name
         item := item
         score := (k.required.filter (fun t => contains_term normalizedTitle t)).length * 10
           + (k.boost.filter (fun t => contains_term normalizedTitle t)).length * 3
         required_matches := k.required.filter (fun t => contains_term normalizedTitle t)
         boost_matches := k.boost.filter (fun t => contains_term normalizedTitle t) }])

/-- The two nested loops of `scorer.score_items`: the per-set result
lists accumulated over all items, before sorting. -/
def scoreFilled (items : List FeedItem) (keywordSets : List KeywordSetConfig) :
    List (String × List ScoredItem) :=
  items.foldl
    (fun results item =>
      keywordSets.foldl (scoreStep (normalize_text item.title) item) results)
    (keywordSets.map (fun k => (k.id, ([] : List ScoredItem))))

/-- `scorer.score_items`: per-set result lists accumulated over all
items, each finally sorted by `_sort_key` (Python's stable sort,
modelled by insertion sort, which is also stable). -/
def scoreItems (items : List FeedItem) (keywordSets : List KeywordSetConfig) :
    List (String × List ScoredItem) :=
  (scoreFilled items keywordSets).map (fun p => (p.1, p.2.insertionSort sortLE))

/-- Regex `\d`. -/
def isPyDigit (c : Char) : Bool := '0' ≤ c && c ≤ '9'

/-- Numeric value of an ASCII digit. -/
def digitVal (c : Char) : Nat := c.toNat - 48

/-- `(?P<year>\d{4})`: exactly four digits, returning the year value and
the rest of the text. -/
def matchYear : List Char → Option (Nat × List Char)
  | c1 :: c2 :: c3 :: c4 :: rest =>
    if isPyDigit c1 && isPyDigit c2 && isPyDigit c3 && isPyDigit c4 then
      some (digitVal c1 * 1000 + digitVal c2 * 100 + digitVal c3 * 10 + digitVal c4, rest)
    else none
  | _ => none

/-- The month alternation `1[0-2]|0?[1-9]` as the list of candidate
parses in the regex engine's preference order (first alternative first,
greedy `0?` first). -/
def monthCandidates (cs : List Char) : List (Nat × List Char) :=
  (match cs with
    | '1' :: d :: rest =>
      if d = '0' ∨ d = '1' ∨ d = '2' then [(10 + digitVal d, rest)] else []
    | _ => []) ++
  (match cs with
    | '0' :: d :: rest =>
      if isPyDigit d ∧ d ≠ '0' then [(digitVal d, rest)] else []
    | _ => []) ++
  (match cs with
    | d :: rest => if isPyDigit d ∧ d ≠ '0' then [(digitVal d, rest)] else []
    | [] => [])

/-- The day alternation `3[01]|[12]\d|0?[1-9]` as the list of candidate
parses in the regex engine's preference order. -/
def dayCandidates (cs : List Char) : List (Nat × List Char) :=
  (match cs with
    | '3' :: d :: rest => if d = '0' ∨ d = '1' then [(30 + digitVal d, rest)] else []
    | _ => []) ++
  (match cs with
    | c :: d :: rest =>
      if (c = '1' ∨ c = '2') ∧ isPyDigit d then [(digitVal c * 10 + digitVal d, rest)] else []
    | _ => []) ++
  (match cs with
    | '0' :: d :: rest => if isPyDigit d ∧ d ≠ '0' then [(digitVal d, rest)] else []
    | _ => []) ++
  (match cs with
    | d :: rest => if isPyDigit d ∧ d ≠ '0' then [(digitVal d, rest)] else []
    | [] => [])

/-- The first candidate the continuation accepts — the regex engine's
backtracking over an alternation. -/
def firstSome {α β : Type} : List α → (α → Option β) → Option β
  | [], _ => none
  | a :: as, f =>
    match f a with
    | some b => some b
    | none => firstSome as f

/-- The separator class of the first deadline pattern, written in the
source as dot, slash, hyphen, 年 inside brackets.  The slash-hyphen-年
part is a character *range* (U+002F–U+5E74), so the class is the dot
plus that range; a plain ASCII hyphen is *not* in it. -/
def isDateSep1 (c : Char) : Bool := c = '.' ∨ ('/' ≤ c ∧ c ≤ '年')

/-- The month-side separator class of the first deadline pattern,
written as dot, slash, hyphen, 月 inside brackets: the dot plus the
range U+002F–U+6708. -/
def isDateSep2 (c : Char) : Bool := c = '.' ∨ ('/' ≤ c ∧ c ≤ '月')

/-- Matching `_DEADLINE_PATTERNS[0]` anchored at the head of `cs`
(the lookbehind is checked by the caller).  The trailing `\s*日?`
always succeeds and binds no group, so the first day candidate wins. -/
def matchP1At (cs : List Char) : Option (Nat × Nat × Nat) :=
  match matchYear cs with
  | none => none
  | some (y, r1) =>
    match r1 with
    | [] => none
    | sep :: r2 =>
      if isDateSep1 sep then
        firstSome (monthCandidates (r2.dropWhile pySpace)) (fun mc =>
          match mc.2 with
          | [] => none
          | sep2 :: r5 =>
            if isDateSep2 sep2 then
              match dayCandidates (r5.dropWhile pySpace) with
              | [] => none
              | dc :: _ => some (y, mc.1, dc.1)
            else none)
      else none

/-- Matching `_DEADLINE_PATTERNS[1]` (`年…月…日`) anchored at the head
of `cs`; the mandatory `日` after the day makes the engine backtrack
over the day alternation too. -/
def matchP2At (cs : List Char) : Option (Nat × Nat × Nat) :=
  match matchYear cs with
  | none => none
  | some (y, r1) =>
    match r1 with
    | '年' :: r2 =>
      firstSome (monthCandidates (r2.dropWhile pySpace)) (fun mc =>
        match mc.2 with
        | '月' :: r5 =>
          firstSome (dayCandidates (r5.dropWhile pySpace)) (fun dc =>
            match dc.2 with
            | '日' :: _ => some (y, mc.1, dc.1)
            | _ => none)
        | _ => none)
    | _ => none

/-- The lookbehind `(?<!\d)`: the previous character, when any, is not a
digit. -/
def lookbehindOK : Option Char → Bool
  | none => true
  | some c => !isPyDigit c

/-- `pattern.search(...)`: the leftmost position whose lookbehind holds
and where the pattern matches; returns that first match's groups. -/
def searchFrom (matchAt : List Char → Option (Nat × Nat × Nat)) :
    Option Char → List Char → Option (Nat × Nat × Nat)
  | _, [] => none
  | prev, c :: rest =>
    if lookbehindOK prev then
      match matchAt (c :: rest) with
      | some r => some r
      | none => searchFrom matchAt (some c) rest
    else searchFrom matchAt (some c) rest

/-- Whether `datetime.date(y, m, d)` accepts the triple (the regex
already confines months to 1–12 and days to 1–31; `date` additionally
rejects days beyond the month's length and year 0). -/
def dateValid (y m d : Nat) : Bool :=
  1 ≤ y && y ≤ 9999 && 1 ≤ m && m ≤ 12 && 1 ≤ d
    && ((d : Int) ≤ daysInMonth (y : Int) (m : Int))

/-- `date(y, m, d).isoformat()`. -/
def isoDate (y m d : Nat) : String :=
  padNum 4 (y : Int) ++ "-" ++ padNum 2 (m : Int) ++ "-" ++ padNum 2 (d : Int)

/-- `normalize.extract_deadline`: try each pattern in priority order on
the normalized text; a pattern with no match, or whose first match
raises `ValueError` in `date(...)`, falls through to the next pattern. -/
def extract_deadline (text : String) : Option String :=
  match searchFrom matchP1At none (normalize_text text).data with
  | some (y, m, d) =>
    if dateValid y m d then some (isoDate y m d)
    else
      match searchFrom matchP2At none (normalize_text text).data with
      | some (y2, m2, d2) =>
        if dateValid y2 m2 d2 then some (isoDate y2 m2 d2) else none
      | none => none
  | none =>
    match searchFrom matchP2At none (normalize_text text).data with
    | some (y2, m2, d2) =>
      if dateValid y2 m2 d2 then some (isoDate y2 m2 d2) else none
    | none => none

/-- The outcome one pattern contributes: the ISO date of its first
(leftmost) match when that match is calendar-valid, and nothing when it
has no match or its first match is calendar-invalid.  Written from the
amended claim's words, to be compared with `extract_deadline`. -/
def patternResult (matchAt : List Char → Option (Nat × Nat × Nat))
    (cs : List Char) : Option String :=
  match searchFrom matchAt none cs with
  | some (y, m, d) => if dateValid y m d then some (isoDate y m d) else none
  | none => none

/-- Whether the text carries, at any position admitted by the
lookbehind, a match of either date pattern whose date is
calendar-valid.  Written from the claim's words ("the text contains a
calendar-valid match of some pattern"). -/
def anyValidMatch : Option Char → List Char → Bool
  | _, [] => false
  | prev, c :: rest =>
    (lookbehindOK prev &&
      ((match matchP1At (c :: rest) with
        | some (y, m, d) => dateValid y m d
        | none => false) ||
       (match matchP2At (c :: rest) with
        | some (y, m, d) => dateValid y m d
        | none => false))) ||
    anyValidMatch (some c) rest

/-- UTF-8 encoding of one character (standard bit layout). -/
def utf8EncodeChar (c : Char) : List Nat :=
  let n := c.toNat
  if n < 0x80 then [n]
  else if n < 0x800 then [0xC0 + n / 64, 0x80 + n % 64]
  else if n < 0x10000 then [0xE0 + n / 4096, 0x80 + (n / 64) % 64, 0x80 + n % 64]
  else [0xF0 + n / 262144, 0x80 + (n / 4096) % 64, 0x80 + (n / 64) % 64, 0x80 + n % 64]

/-- `str.encode("utf-8")`. -/
def utf8Encode (cs : List Char) : List Nat := cs.flatMap utf8EncodeChar

/-- A UTF-8 continuation byte. -/
def isCont (b : Nat) : Bool := 0x80 ≤ b && b ≤ 0xBF

/-- Allowed second byte of a three-byte sequence (excludes overlong
encodings and surrogates, as CPython's decoder does). -/
def cont3OK (b1 b2 : Nat) : Bool :=
  if b1 = 0xE0 then 0xA0 ≤ b2 && b2 ≤ 0xBF
  else if b1 = 0xED then 0x80 ≤ b2 && b2 ≤ 0x9F
  else isCont b2

/-- Allowed second byte of a four-byte sequence. -/
def cont4OK (b1 b2 : Nat) : Bool :=
  if b1 = 0xF0 then 0x90 ≤ b2 && b2 ≤ 0xBF
  else if b1 = 0xF4 then 0x80 ≤ b2 && b2 ≤ 0x8F
  else isCont b2

/-- `bytes.decode("utf-8", errors="replace")`, with an explicit fuel
argument (always at least the list length) so that the recursion is
structural and kernel-reducible: each maximal invalid prefix becomes
one U+FFFD. -/
def utf8DecodeReplaceGo : Nat → List Nat → List Char
  | 0, _ => []
  | _, [] => []
  | fuel + 1, b1 :: rest =>
    if b1 < 0x80 then Char.ofNat b1 :: utf8DecodeReplaceGo fuel rest
    else if 0xC2 ≤ b1 && b1 ≤ 0xDF then
      match rest with
      | b2 :: rest2 =>
        if isCont b2 then
          Char.ofNat ((b1 - 0xC0) * 64 + (b2 - 0x80)) :: utf8DecodeReplaceGo fuel rest2
        else '�' :: utf8DecodeReplaceGo fuel (b2 :: rest2)
      | [] => ['�']
    else if 0xE0 ≤ b1 && b1 ≤ 0xEF then
      match rest with
      | b2 :: rest2 =>
        if cont3OK b1 b2 then
          match rest2 with
          | b3 :: rest3 =>
            if isCont b3 then
              Char.ofNat ((b1 - 0xE0) * 4096 + (b2 - 0x80) * 64 + (b3 - 0x80))
                :: utf8DecodeReplaceGo fuel rest3
            else '�' :: utf8DecodeReplaceGo fuel (b3 :: rest3)
          | [] => ['�']
        else '�' :: utf8DecodeReplaceGo fuel (b2 :: rest2)
      | [] => ['�']
    else if 0xF0 ≤ b1 && b1 ≤ 0xF4 then
      match rest with
      | b2 :: rest2 =>
        if cont4OK b1 b2 then
          match rest2 with
          | b3 :: rest3 =>
            if isCont b3 then
              match rest3 with
              | b4 :: rest4 =>
                if isCont b4 then
                  Char.ofNat ((b1 - 0xF0) * 262144 + (b2 - 0x80) * 4096
                      + (b3 - 0x80) * 64 + (b4 - 0x80))
                    :: utf8DecodeReplaceGo fuel rest4
                else '�' :: utf8DecodeReplaceGo fuel (b4 :: rest4)
              | [] => ['�']
            else '�' :: utf8DecodeReplaceGo fuel (b3 :: rest3)
          | [] => ['�']
        else '�' :: utf8DecodeReplaceGo fuel (b2 :: rest2)
      | [] => ['�']
    else '�' :: utf8DecodeReplaceGo fuel rest

/-- `bytes.decode("utf-8", errors="replace")`. -/
def utf8DecodeReplace (bs : List Nat) : List Char := utf8DecodeReplaceGo bs.length bs

/-- A hexadecimal digit, as `unquote` accepts (either case). -/
def isHexDigitChar (c : Char) : Bool :=
  isPyDigit c || ('a' ≤ c && c ≤ 'f') || ('A' ≤ c && c ≤ 'F')

/-- Value of a hexadecimal digit. -/
def hexVal (c : Char) : Nat :=
  if isPyDigit c then digitVal c
  else if 'a' ≤ c && c ≤ 'f' then c.toNat - 87
  else c.toNat - 55

/-- `unquote_to_bytes` on one ASCII run, with fuel for structural
recursion: literal characters contribute their code, a percent sign
followed by two hex digits contributes that byte, a percent sign not so
followed stays literal. -/
def unquoteAsciiRunGo : Nat → List Char → List Nat
  | 0, _ => []
  | _, [] => []
  | fuel + 1, '%' :: rest =>
    match rest with
    | h1 :: h2 :: rest2 =>
      if isHexDigitChar h1 && isHexDigitChar h2 then
        (hexVal h1 * 16 + hexVal h2) :: unquoteAsciiRunGo fuel rest2
      else 0x25 :: unquoteAsciiRunGo fuel rest
    | _ => 0x25 :: unquoteAsciiRunGo fuel rest
  | fuel + 1, c :: rest => c.toNat :: unquoteAsciiRunGo fuel rest

/-- `unquote_to_bytes` on one ASCII run. -/
def unquoteAsciiRun (cs : List Char) : List Nat := unquoteAsciiRunGo cs.length cs

/-- `urllib.parse.unquote(·, encoding="utf-8", errors="replace")`, with
fuel for structural recursion: maximal ASCII runs are percent-decoded
to bytes and UTF-8-decoded with replacement; non-ASCII characters pass
through unchanged. -/
def pyUnquoteGo : Nat → List Char → List Char
  | 0, _ => []
  | _, [] => []
  | fuel + 1, c :: rest =>
    if c.toNat ≤ 0x7F then
      utf8DecodeReplace
          (unquoteAsciiRun ((c :: rest).takeWhile (fun c => c.toNat ≤ 0x7F)))
        ++ pyUnquoteGo fuel ((c :: rest).dropWhile (fun c => c.toNat ≤ 0x7F))
    else c :: pyUnquoteGo fuel rest

/-- `urllib.parse.unquote(·, encoding="utf-8", errors="replace")`. -/
def pyUnquote (cs : List Char) : List Char := pyUnquoteGo cs.length cs

/-- `name_value.replace("+", " ")` in `parse_qsl`. -/
def plusToSpace (cs : List Char) : List Char :=
  cs.map (fun c => if c = '+' then ' ' else c)

/-- `str.split(sep)` for a one-character separator (never returns an
empty list). -/
def splitOnChar (sep : Char) : List Char → List (List Char)
  | [] => [[]]
  | c :: rest =>
    match splitOnChar sep rest with
    | [] => if c = sep then [[], []] else [[c]]
    | g :: gs => if c = sep then [] :: g :: gs else (c :: g) :: gs

/-- `urllib.parse.parse_qsl(qs, keep_blank_values=True)`: split on `&`,
skip empty fields, split each field once on `=` (a field with no `=`
gets an empty value), un-plus and percent-decode names and values. -/
def parse_qsl (qs : String) : List (String × String) :=
  (if qs.data.isEmpty then [] else splitOnChar '&' qs.data).foldr
    (fun seg acc =>
      if seg.isEmpty then acc
      else
        let name := seg.takeWhile (fun c => c ≠ '=')
        let value :=
          match seg.dropWhile (fun c => c ≠ '=') with
          | [] => []
          | _ :: t => t
        (String.mk (pyUnquote (plusToSpace name)),
          String.mk (pyUnquote (plusToSpace value))) :: acc)
    []

/-- `_ALWAYS_SAFE` of `urllib.parse`: ASCII letters, digits, and
`_ . - ~`. -/
def alwaysSafeByte (b : Nat) : Bool :=
  (0x41 ≤ b && b ≤ 0x5A) || (0x61 ≤ b && b ≤ 0x7A) || (0x30 ≤ b && b ≤ 0x39)
    || b = 0x5F || b = 0x2E || b = 0x2D || b = 0x7E

/-- An upper-case hexadecimal digit, as `quote` emits. -/
def hexUpper (n : Nat) : Char :=
  if n < 10 then Char.ofNat (48 + n) else Char.ofNat (55 + n)

/-- `urllib.parse.quote_plus(s, safe="")`: UTF-8 encode, keep the
always-safe bytes, turn spaces into `+`, percent-encode the rest (the
source's two branches — quote with space temporarily safe then replace
spaces, or plain quote — collapse to this per-byte map). -/
def quotePlus (s : String) : String :=
  String.mk ((utf8Encode s.data).flatMap (fun b =>
    if b = 0x20 then ['+']
    else if alwaysSafeByte b then [Char.ofNat b]
    else ['%', hexUpper (b / 16), hexUpper (b % 16)]))

/-- `urllib.parse.urlencode(pairs, doseq=True)` on string pairs:
quote-plus each name and value and join with `&`. -/
def urlencodePairs (pairs : List (String × String)) : String :=
  String.intercalate "&" (pairs.map (fun kv => quotePlus kv.1 ++ "=" ++ quotePlus kv.2))

/-- The order `sorted()` uses on pairs of strings: lexicographic tuple
comparison by code points. -/
def pairLE (a b : String × String) : Prop := toLex a ≤ toLex b

instance : DecidableRel pairLE := fun a b =>
  inferInstanceAs (Decidable (toLex a ≤ toLex b))

instance : IsTotal (String × String) pairLE := ⟨fun a b => le_total (toLex a) (toLex b)⟩

instance : IsTrans (String × String) pairLE := ⟨fun _ _ _ hab hbc => le_trans hab hbc⟩

instance : IsAntisymm (String × String) pairLE :=
  ⟨fun _ _ h1 h2 => toLex.injective (le_antisymm h1 h2)⟩

/-- The result of `urllib.parse.urlsplit`. -/
structure SplitResult where
  scheme : String
  netloc : String
  path : String
  query : String
  fragment : String
deriving Repr, DecidableEq

/-- A character allowed in a scheme name (`scheme_chars`). -/
def isSchemeChar (c : Char) : Bool :=
  ('a' ≤ c && c ≤ 'z') || ('A' ≤ c && c ≤ 'Z') || isPyDigit c
    || c = '+' || c = '-' || c = '.'

/-- An ASCII letter. -/
def isAsciiAlpha (c : Char) : Bool := ('a' ≤ c && c ≤ 'z') || ('A' ≤ c && c ≤ 'Z')

/-- `urllib.parse.urlsplit` (allow_fragments true): remove tab/CR/LF,
split off a well-formed scheme (lower-cased), a `//`-prefixed netloc up
to the first `/?#`, then the fragment after the first `#`, then the
query after the first `?`.  The `ValueError`s for unbalanced IPv6
brackets and for non-ASCII netlocs that change under NFKC are omitted;
the theorems below only use URLs on which they cannot fire. -/
def urlsplit (url : String) : SplitResult :=
  let cs := url.data.filter (fun c => !(c = '\t' || c = '\r' || c = '\n'))
  let pre := cs.takeWhile (fun c => c ≠ ':')
  let post := cs.dropWhile (fun c => c ≠ ':')
  let schemeRest : List Char × List Char :=
    match post with
    | [] => ([], cs)
    | _ :: afterColon =>
      if (match pre with | c :: _ => isAsciiAlpha c | [] => false)
          && pre.all isSchemeChar then
        (pre.map pyLower, afterColon)
      else ([], cs)
  let scheme := schemeRest.1
  let rest := schemeRest.2
  let netlocRest : List Char × List Char :=
    if rest.take 2 = ['/', '/'] then
      ((rest.drop 2).takeWhile (fun c => !(c = '/' || c = '?' || c = '#')),
        (rest.drop 2).dropWhile (fun c => !(c = '/' || c = '?' || c = '#')))
    else ([], rest)
  let netloc := netlocRest.1
  let rest2 := netlocRest.2
  let urlFragment : List Char × List Char :=
    if rest2.any (fun c => c = '#') then
      (rest2.takeWhile (fun c => c ≠ '#'),
        match rest2.dropWhile (fun c => c ≠ '#') with
        | [] => []
        | _ :: t => t)
    else (rest2, [])
  let rest3 := urlFragment.1
  let pathQuery : List Char × List Char :=
    if rest3.any (fun c => c = '?') then
      (rest3.takeWhile (fun c => c ≠ '?'),
        match rest3.dropWhile (fun c => c ≠ '?') with
        | [] => []
        | _ :: t => t)
    else (rest3, [])
  { scheme := String.mk scheme
    netloc := String.mk netloc
    path := String.mk pathQuery.1
    query := String.mk pathQuery.2
    fragment := String.mk urlFragment.2 }

/-- `urllib.parse.uses_netloc`. -/
def uses_netloc : List String :=
  ["", "ftp", "http", "gopher", "nntp", "telnet", "imap", "wais", "file", "mms",
   "https", "shttp", "snews", "prospero", "rtsp", "rtspu", "rsync", "svn",
   "svn+ssh", "sftp", "nfs", "git", "git+ssh", "ws", "wss"]

/-- `urllib.parse.urlunsplit`. -/
def urlunsplit (scheme netloc path query fragment : String) : String :=
  let url := path
  let url :=
    if netloc ≠ "" ∨ (scheme ≠ "" ∧ uses_netloc.contains scheme ∧ url.data.take 2 ≠ ['/', '/']) then
      let url := if url ≠ "" ∧ url.data.take 1 ≠ ['/'] then "/" ++ url else url
      "//" ++ netloc ++ url
    else url
  let url := if scheme ≠ "" then scheme ++ ":" ++ url else url
  let url := if query ≠ "" then url ++ "?" ++ query else url
  if fragment ≠ "" then url ++ "#" ++ fragment else url

/-- `normalize.TRACKING_QUERY_KEYS`. -/
def TRACKING_QUERY_KEYS : List String :=
  ["utm_source", "utm_medium", "utm_campaign", "utm_term", "utm_content",
   "gclid", "fbclid"]

/-- `str.lower()` on the repertoire used here (ASCII folding). -/
def pyLowerStr (s : String) : String := String.mk (s.data.map pyLower)

/-- The tracking filter of `normalize.normalize_url`:
`key.lower() not in TRACKING_QUERY_KEYS`. -/
def keepPair (kv : String × String) : Bool :=
  !(TRACKING_QUERY_KEYS.contains (pyLowerStr kv.1))

/-- The path step of `normalize.normalize_url`: default to `/`, then
drop one trailing slash unless the path is the root. -/
def normPath (path : String) : String :=
  if path = "" then "/"
  else if path ≠ "/" ∧ path.data.getLast? = some '/' then String.mk path.data.dropLast
  else path

/-- `normalize.normalize_url`: strip, split, default the scheme to
`https`, lower-case scheme and host, default the path to `/` and drop
one trailing slash, drop tracking query keys, re-encode the remaining
pairs sorted by `sorted()`, drop the fragment. -/
def normalize_url (url : String) : String :=
  urlunsplit
    (pyLowerStr (if (urlsplit (String.mk (pyStrip url.data))).scheme = "" then "https"
      else (urlsplit (String.mk (pyStrip url.data))).scheme))
    (pyLowerStr (urlsplit (String.mk (pyStrip url.data))).netloc)
    (normPath (urlsplit (String.mk (pyStrip url.data))).path)
    (urlencodePairs
      (((parse_qsl (urlsplit (String.mk (pyStrip url.data))).query).filter
        keepPair).insertionSort pairLE))
    ""

/-- The SHA-256 round constants (FIPS 180-4). -/
def K256 : Array Nat :=
  #[1116352408, 1899447441, 3049323471, 3921009573,
    961987163, 1508970993, 2453635748, 2870763221,
    3624381080, 310598401, 607225278, 1426881987,
    1925078388, 2162078206, 2614888103, 3248222580,
    3835390401, 4022224774, 264347078, 604807628,
    770255983, 1249150122, 1555081692, 1996064986,
    2554220882, 2821834349, 2952996808, 3210313671,
    3336571891, 3584528711, 113926993, 338241895,
    666307205, 773529912, 1294757372, 1396182291,
    1695183700, 1986661051, 2177026350, 2456956037,
    2730485921, 2820302411, 3259730800, 3345764771,
    3516065817, 3600352804, 4094571909, 275423344,
    430227734, 506948616, 659060556, 883997877,
    958139571, 1322822218, 1537002063, 1747873779,
    1955562222, 2024104815, 2227730452, 2361852424,
    2428436474, 2756734187, 3204031479, 3329325298]

/-- 2^32. -/
def m32 : Nat := 4294967296

/-- 32-bit right rotation. -/
def rotr (n x : Nat) : Nat := ((x >>> n) ||| (x <<< (32 - n))) % m32

/-- The SHA-256 state (eight 32-bit words). -/
structure Hash8 where
  a : Nat
  b : Nat
  c : Nat
  d : Nat
  e : Nat
  f : Nat
  g : Nat
  h : Nat
deriving Repr, DecidableEq

/-- Big-endian 64-bit length field of the SHA-256 padding. -/
def be64 (n : Nat) : List Nat :=
  [(n >>> 56) % 256, (n >>> 48) % 256, (n >>> 40) % 256, (n >>> 32) % 256,
   (n >>> 24) % 256, (n >>> 16) % 256, (n >>> 8) % 256, n % 256]

/-- SHA-256 padding: a `0x80` byte, zeros to 56 mod 64, and the bit
length. -/
def sha256Pad (msg : List Nat) : List Nat :=
  msg ++ [0x80] ++ List.replicate ((119 - (msg.length % 64)) % 64) 0
    ++ be64 (msg.length * 8)

/-- Split a byte string into 64-byte blocks (fuel for structural
recursion; the fuel is always at least the number of blocks). -/
def toBlocksGo : Nat → List Nat → List (List Nat)
  | 0, _ => []
  | _, [] => []
  | fuel + 1, b :: rest => (b :: rest).take 64 :: toBlocksGo fuel ((b :: rest).drop 64)

/-- Split a byte string into 64-byte blocks. -/
def toBlocks (l : List Nat) : List (List Nat) := toBlocksGo l.length l

/-- The sixteen big-endian message words of one block. -/
def wordsOfBlock (block : List Nat) : Array Nat :=
  (List.range 16).foldl
    (fun arr i =>
      arr.push (block.getD (4 * i) 0 * 16777216 + block.getD (4 * i + 1) 0 * 65536
        + block.getD (4 * i + 2) 0 * 256 + block.getD (4 * i + 3) 0))
    #[]

/-- Extend the message schedule by `n` further words. -/
def extendWords : Array Nat → Nat → Array Nat
  | ws, 0 => ws
  | ws, n + 1 =>
    let i := ws.size
    let s0 := rotr 7 (ws.getD (i - 15) 0) ^^^ rotr 18 (ws.getD (i - 15) 0)
      ^^^ (ws.getD (i - 15) 0 >>> 3)
    let s1 := rotr 17 (ws.getD (i - 2) 0) ^^^ rotr 19 (ws.getD (i - 2) 0)
      ^^^ (ws.getD (i - 2) 0 >>> 10)
    extendWords (ws.push ((ws.getD (i - 16) 0 + s0 + ws.getD (i - 7) 0 + s1) % m32)) n

/-- `n` SHA-256 compression rounds (round index counted from the end). -/
def compressRounds (w : Array Nat) : Nat → Hash8 → Hash8
  | 0, s => s
  | n + 1, s =>
    let i := 64 - (n + 1)
    let S1 := rotr 6 s.e ^^^ rotr 11 s.e ^^^ rotr 25 s.e
    let ch := (s.e &&& s.f) ^^^ ((s.e ^^^ 4294967295) &&& s.g)
    let t1 := (s.h + S1 + ch + K256.getD i 0 + w.getD i 0) % m32
    let S0 := rotr 2 s.a ^^^ rotr 13 s.a ^^^ rotr 22 s.a
    let mj := (s.a &&& s.b) ^^^ (s.a &&& s.c) ^^^ (s.b &&& s.c)
    let t2 := (S0 + mj) % m32
    compressRounds w n
      ⟨(t1 + t2) % m32, s.a, s.b, s.c, (s.d + t1) % m32, s.e, s.f, s.g⟩

/-- One SHA-256 block step. -/
def sha256Block (s : Hash8) (block : List Nat) : Hash8 :=
  let w := extendWords (wordsOfBlock block) 48
  let t := compressRounds w 64 s
  ⟨(s.a + t.a) % m32, (s.b + t.b) % m32, (s.c + t.c) % m32, (s.d + t.d) % m32,
   (s.e + t.e) % m32, (s.f + t.f) % m32, (s.g + t.g) % m32, (s.h + t.h) % m32⟩

/-- SHA-256 of a byte string, as the eight state words. -/
def sha256Words (msg : List Nat) : List Nat :=
  let s := (toBlocks (sha256Pad msg)).foldl sha256Block
    ⟨1779033703, 3144134277, 1013904242, 2773480762,
     1359893119, 2600822924, 528734635, 1541459225⟩
  [s.a, s.b, s.c, s.d, s.e, s.f, s.g, s.h]

/-- A lower-case hexadecimal digit, as `hexdigest` emits. -/
def hexLower (n : Nat) : Char :=
  if n < 10 then Char.ofNat (48 + n) else Char.ofNat (87 + n)

/-- Eight lower-case hex digits of a 32-bit word. -/
def toHex8 (n : Nat) : List Char :=
  [hexLower ((n >>> 28) % 16), hexLower ((n >>> 24) % 16), hexLower ((n >>> 20) % 16),
   hexLower ((n >>> 16) % 16), hexLower ((n >>> 12) % 16), hexLower ((n >>> 8) % 16),
   hexLower ((n >>> 4) % 16), hexLower (n % 16)]

/-- `hashlib.sha256(bytes).hexdigest()`. -/
def sha256Hex (msg : List Nat) : String :=
  String.mk ((sha256Words msg).flatMap toHex8)

/-- `normalize.stable_url_key`: SHA-256 hex digest of the UTF-8 bytes of
the canonicalized URL. -/
def stable_url_key (url : String) : String :=
  sha256Hex (utf8Encode (normalize_url url).data)

/-- `str.strip()` on a string. -/
def pyStripStr (s : String) : String := String.mk (pyStrip s.data)

/-- A row of the `x_posts` table.  Modelled from the spec: §6 gives the
posts table as `posts(post_date UNIQUE, posted_at, mode, route, status,
response_id, response_body, failure_reason)`; the storage module under
`src/` shows a reduced schema, but `x_publish.py` and its tests read and
write the `route`, `draft_id`, `text_hash`, `post_id` and
`failure_reason` columns, so they are modelled here. -/
structure XPostRow where
  post_date_jst : String
  posted_at : String
  mode : String
  route : String
  status : String
  draft_id : Option Nat
  text_hash : Option String
  post_id : Option String
  failure_reason : Option String
  response_id : Option String
  response_body : Option String
deriving Repr, DecidableEq

/-- A row of the `x_drafts` table (`storage.SCHEMA_SQL`). -/
structure XDraftRow where
  id : Nat
  post_date_jst : String
  generated_at : String
  top_n : Nat
  item_count : Nat
  lp_url : String
  content : String
deriving Repr, DecidableEq

/-- Modelled from the spec: §4.3's "draft/post existence-check" — the
store lookup `x_post_for_date`, used by `publish_x_post` but absent
from the storage module under `src/`; a `SELECT` by the unique
`post_date_jst`. -/
def x_post_for_date (posts : List XPostRow) (d : String) : Option XPostRow :=
  posts.find? (fun r => r.post_date_jst == d)

/-- Modelled from the spec: §4.3's "draft/post existence-check" — the
store lookup `x_draft_for_date`, used by `publish_x_post` but absent
from the storage module under `src/`. -/
def x_draft_for_date (drafts : List XDraftRow) (d : String) : Option XDraftRow :=
  drafts.find? (fun r => r.post_date_jst == d)

/-- `SQLiteStore.record_x_post` (with the extended column set; the
overwrite flag selects `INSERT ... ON CONFLICT(post_date_jst) DO
UPDATE` versus a plain `INSERT`, which fails on a duplicate date). -/
def record_x_post (posts : List XPostRow) (row : XPostRow) (overwrite : Bool) :
    Except String (List XPostRow) :=
  if overwrite then
    .ok (if (x_post_for_date posts row.post_date_jst).isSome then
      posts.map (fun r => if r.post_date_jst == row.post_date_jst then row else r)
    else posts ++ [row])
  else if (x_post_for_date posts row.post_date_jst).isSome then
    .error "UNIQUE constraint failed: x_posts.post_date_jst"
  else .ok (posts ++ [row])

/-- `SQLiteStore.record_x_draft`: insert, or upsert when overwriting;
the autoincrement id is modelled as max existing id + 1. -/
def record_x_draft (drafts : List XDraftRow) (post_date_jst generated_at : String)
    (top_n item_count : Nat) (lp_url content : String) (overwrite : Bool) :
    Except String (List XDraftRow) :=
  let newRow : Nat → XDraftRow := fun i =>
    { id := i, post_date_jst := post_date_jst, generated_at := generated_at,
      top_n := top_n, item_count := item_count, lp_url := lp_url, content := content }
  if overwrite then
    .ok (if (x_draft_for_date drafts post_date_jst).isSome then
      drafts.map (fun r => if r.post_date_jst == post_date_jst then newRow r.id else r)
    else drafts ++ [newRow ((drafts.map (fun r => r.id)).foldl max 0 + 1)])
  else if (x_draft_for_date drafts post_date_jst).isSome then
    .error "UNIQUE constraint failed: x_drafts.post_date_jst"
  else .ok (drafts ++ [newRow ((drafts.map (fun r => r.id)).foldl max 0 + 1)])

/-- `x_publish.SUPPORTED_MODES`. -/
def SUPPORTED_MODES : List String := ["auto", "manual", "webhook", "x_api_v2"]

/-- `x_publish.SUPPORTED_MISSING_ROUTE_POLICIES`. -/
def SUPPORTED_MISSING_ROUTE_POLICIES : List String := ["fail", "dry-run-success"]

/-- `x_publish._load_draft_text`: the draft file's stripped content, or
an empty text plus a load error. -/
def loadDraftText (draftFile : Option String) (draft_path : String) :
    String × Option String :=
  match draftFile with
  | none => ("", some ("x draft file not found: " ++ draft_path))
  | some content =>
    let c := pyStripStr content
    if c = "" then ("", some ("x draft file is empty: " ++ draft_path))
    else (c, none)

/-- The exceptions `publish_x_post` can raise. -/
inductive PublishError where
  | valueError (msg : String)
  | configError (detail : String) (missing : List String)
  | external (msg : String)
deriving Repr, DecidableEq

/-- A receipt file written by `_write_receipt`; only the path and the
payload fields the claims mention are modelled. -/
structure Receipt where
  path : String
  status : String
  reason : Option String
deriving Repr, DecidableEq

/-- The dataclass `x_publish.XPublishResult`; paths are strings. -/
structure XPublishResult where
  post_date_jst : String
  mode : String
  route : String
  dry_run : Bool
  status : String
  response_id : Option String
  response_body : Option String
  draft_path : String
  draft_id : Option Nat
  text_hash : Option String
  planned_text : String
  selection_reason : String
  duplicate_check_result : String
  missing_requirements : List String
  receipt_path : String
  skipped : Bool
deriving Repr, DecidableEq

/-- Everything one `publish_x_post` call produces: its return value or
exception, the resulting `x_posts` table, the receipts written, and the
number of external HTTP calls made. -/
structure XPublishOutcome where
  result : Except PublishError XPublishResult
  posts : List XPostRow
  receipts : List Receipt
  httpCalls : Nat
deriving Repr

/-- `x_publish._duplicate_check_result`. -/
def duplicateCheckResult (existing : Option XPostRow) : String :=
  match existing with
  | none => "no_existing_post_for_jst_date"
  | some row =>
    "existing_post_found status=" ++ row.status ++ " mode=" ++ row.mode
      ++ " text_hash=" ++ (match row.text_hash with | some h => h | none => "None")

/-- `x_publish._resolve_route`: `(route, selection_reason,
missing_requirements, direct_token)`. -/
def resolveRoute (mode webhook_url x_user_access_token x_api_bearer_token : String) :
    String × String × List String × String :=
  let webhook := pyStripStr webhook_url
  let user_token := pyStripStr x_user_access_token
  let app_token := pyStripStr x_api_bearer_token
  if mode = "manual" then ("manual", "mode=manual: external post disabled", [], "")
  else if mode = "webhook" then
    if webhook ≠ "" then ("webhook", "mode=webhook: using X_WEBHOOK_URL", [], "")
    else ("", "mode=webhook: X_WEBHOOK_URL is missing", ["X_WEBHOOK_URL"], "")
  else if mode = "x_api_v2" then
    if user_token ≠ "" then
      ("x_api_v2", "mode=x_api_v2: using X_USER_ACCESS_TOKEN", [], user_token)
    else if app_token ≠ "" then
      ("x_api_v2", "mode=x_api_v2: using X_API_BEARER_TOKEN", [], app_token)
    else ("", "mode=x_api_v2: token is missing (X_USER_ACCESS_TOKEN or X_API_BEARER_TOKEN)",
      ["X_USER_ACCESS_TOKEN", "X_API_BEARER_TOKEN"], "")
  else if webhook ≠ "" then ("webhook", "mode=auto: selected webhook route", [], "")
  else if user_token ≠ "" then
    ("x_api_v2", "mode=auto: selected direct API route (X_USER_ACCESS_TOKEN)", [], user_token)
  else if app_token ≠ "" then
    ("x_api_v2", "mode=auto: selected direct API route (X_API_BEARER_TOKEN)", [], app_token)
  else ("", "mode=auto: no publish route is configured (X_WEBHOOK_URL or token env)",
    ["X_WEBHOOK_URL", "X_USER_ACCESS_TOKEN", "X_API_BEARER_TOKEN"], "")

/-- One step of the scan of `URL_PATTERN.findall`: tokens are maximal
non-whitespace runs starting at an occurrence of the scheme prefix with
at least one non-space character after it; the scan resumes after each
token. -/
def findUrlTokensGo : Nat → List Char → List (List Char)
  | 0, _ => []
  | _, [] => []
  | fuel + 1, c :: rest =>
    let here := c :: rest
    let schemeLen : Nat :=
      if listStartsWith "https://".data here then 8
      else if listStartsWith "http://".data here then 7
      else 0
    let bodyOK : Bool :=
      match here.drop schemeLen with
      | d :: _ => !pySpace d
      | [] => false
    if schemeLen ≠ 0 && bodyOK then
      here.takeWhile (fun ch => !pySpace ch)
        :: findUrlTokensGo fuel (here.dropWhile (fun ch => !pySpace ch))
    else findUrlTokensGo fuel rest

/-- `matched.rstrip(".,;)")`. -/
def rstripUrlPunct (cs : List Char) : List Char :=
  (cs.reverse.dropWhile (fun c => c = '.' || c = ',' || c = ';' || c = ')')).reverse

/-- `dict.fromkeys(urls)`: deduplicate keeping first occurrences. -/
def dedupeKeepFirst (l : List String) : List String :=
  l.foldl (fun acc s => if acc.contains s then acc else acc ++ [s]) []

/-- `x_publish._extract_urls`. -/
def extract_urls (text : String) : List String :=
  dedupeKeepFirst
    (((findUrlTokensGo text.data.length text.data).map
      (fun t => String.mk (rstripUrlPunct t))).filter (fun s => s ≠ ""))

/-- `x_publish._safe_normalize_url`: the embedded `normalize_url` is
total, so the fallback branch for a raising `urlsplit` cannot fire. -/
def safeNormalizeUrl (url : String) : String := normalize_url url

/-- `x_publish._validate_post_text`: `(safety_errors, urls)`. -/
def validatePostText (text lp_url : String) : List String × List String :=
  let payload := pyStripStr text
  let urls := extract_urls payload
  ((if payload = "" then ["post text is empty"] else [])
    ++ (if payload.length > 280 then
      ["post text exceeds 280 characters: len=" ++ toString payload.length] else [])
    ++ (if urls.length > 1 then ["post text has multiple URLs; keep only LP link"] else [])
    ++ (if pyStripStr lp_url ≠ "" ∧ urls ≠ [] then
      (if safeNormalizeUrl lp_url ≠ safeNormalizeUrl (urls.headD "") then
        ["post URL does not match LP URL"] else [])
    else []), urls)

/-- The success tail of `publish_x_post` shared by the manual and the
posted routes: record the Post row, write the receipt, return. -/
def finishPost (posts : List XPostRow) (receipt_dir : String)
    (post_date_jst posted_at mode route status : String)
    (response_id : Option String) (response_body : String) (draft_path : String)
    (draft_id : Option Nat) (text_hash : Option String)
    (planned_text selection_reason duplicate_result : String)
    (missing_requirements : List String) (force : Bool) (calls : Nat) :
    XPublishOutcome :=
  let safe_response_body := response_body.take 2000
  match record_x_post posts
      { post_date_jst := post_date_jst, posted_at := posted_at, mode := mode,
        route := route, status := status, draft_id := draft_id,
        text_hash := text_hash, post_id := response_id, failure_reason := none,
        response_id := response_id, response_body := some safe_response_body }
      force with
  | .error e => ⟨.error (.valueError e), posts, [], calls⟩
  | .ok postsNew =>
    let receipt_path := receipt_dir ++ "/" ++ post_date_jst ++ "-" ++ mode
      ++ "-" ++ route ++ ".json"
    ⟨.ok { post_date_jst := post_date_jst, mode := mode, route := route,
           dry_run := false, status := status, response_id := response_id,
           response_body := some safe_response_body, draft_path := draft_path,
           draft_id := draft_id, text_hash := text_hash,
           planned_text := planned_text, selection_reason := selection_reason,
           duplicate_check_result := duplicate_result,
           missing_requirements := missing_requirements,
           receipt_path := receipt_path, skipped := false },
      postsNew, [⟨receipt_path, status, none⟩], calls⟩

/-- `x_publish.publish_x_post`.  The store tables, the draft file's
content, and the outcome of the single external HTTP call (its raised
message, or the parsed response id and body) are explicit arguments;
`post_date_jst`/`posted_at` stand for `_post_date_jst(now)` and
`now.isoformat()`. -/
def publish_x_post (posts : List XPostRow) (drafts : List XDraftRow)
    (draftFile : Option String) (draft_dir receipt_dir : String) (mode : String)
    (post_date_jst posted_at : String) (force : Bool)
    (webhook_url x_user_access_token x_api_bearer_token bearer_token lp_url : String)
    (dry_run live : Bool) (on_missing_route : String)
    (httpOutcome : Except String (Option String × String)) : XPublishOutcome :=
  if !(SUPPORTED_MODES.contains mode) then
    ⟨.error (.valueError ("unsupported mode: " ++ mode)), posts, [], 0⟩
  else if !(SUPPORTED_MISSING_ROUTE_POLICIES.contains on_missing_route) then
    ⟨.error (.valueError ("unsupported on_missing_route policy: " ++ on_missing_route)),
      posts, [], 0⟩
  else if dry_run && live then
    ⟨.error (.valueError "dry_run and live cannot both be true"), posts, [], 0⟩
  else
    let draft_path := draft_dir ++ "/" ++ post_date_jst ++ ".txt"
    let draft_id := (x_draft_for_date drafts post_date_jst).map (fun r => r.id)
    let text := (loadDraftText draftFile draft_path).1
    let load_error := (loadDraftText draftFile draft_path).2
    let text_hash := if text ≠ "" then some (sha256Hex (utf8Encode text.data)) else none
    let existing := x_post_for_date posts post_date_jst
    let duplicate_result := duplicateCheckResult existing
    if existing.isSome && !force then
      let receipt_path := receipt_dir ++ "/" ++ post_date_jst ++ "-" ++ mode
        ++ "-skipped.json"
      ⟨.ok { post_date_jst := post_date_jst, mode := mode,
             route := (match existing with | some r => r.route | none => ""),
             dry_run := dry_run, status := "skipped", response_id := none,
             response_body := some "already posted", draft_path := draft_path,
             draft_id := draft_id, text_hash := text_hash, planned_text := text,
             selection_reason := "skip: already posted for JST date",
             duplicate_check_result := duplicate_result, missing_requirements := [],
             receipt_path := receipt_path, skipped := true },
        posts, [⟨receipt_path, "skipped", some "already posted"⟩], 0⟩
    else
      let direct_api_token := if x_api_bearer_token ≠ "" then x_api_bearer_token
        else bearer_token
      let rr := resolveRoute mode webhook_url x_user_access_token direct_api_token
      let route := rr.1
      let selection_reason := rr.2.1
      let missing_requirements := rr.2.2.1
      let _direct_token := rr.2.2.2
      let safety_errors := (validatePostText text lp_url).1
        ++ (match load_error with | some e => [e] | none => [])
      if dry_run then
        let dry_run_status :=
          if route = "" ∧ mode ≠ "manual" then "dry_run_no_route"
          else if safety_errors ≠ [] then "dry_run_invalid"
          else "dry_run"
        let receipt_path := receipt_dir ++ "/" ++ post_date_jst ++ "-" ++ mode
          ++ "-dry-run.json"
        ⟨.ok { post_date_jst := post_date_jst, mode := mode,
               route := (if route = "" then "none" else route), dry_run := true,
               status := dry_run_status, response_id := none, response_body := none,
               draft_path := draft_path, draft_id := draft_id, text_hash := text_hash,
               planned_text := text, selection_reason := selection_reason,
               duplicate_check_result := duplicate_result,
               missing_requirements := missing_requirements,
               receipt_path := receipt_path, skipped := false },
          posts, [⟨receipt_path, dry_run_status, none⟩], 0⟩
      else if route = "" ∧ mode ≠ "manual" then
        if on_missing_route = "dry-run-success" then
          let receipt_path := receipt_dir ++ "/" ++ post_date_jst ++ "-" ++ mode
            ++ "-fallback-dry-run.json"
          ⟨.ok { post_date_jst := post_date_jst, mode := mode, route := "none",
                 dry_run := true, status := "dry_run_no_route", response_id := none,
                 response_body := none, draft_path := draft_path, draft_id := draft_id,
                 text_hash := text_hash, planned_text := text,
                 selection_reason := selection_reason,
                 duplicate_check_result := duplicate_result,
                 missing_requirements := missing_requirements,
                 receipt_path := receipt_path, skipped := false },
            posts, [⟨receipt_path, "dry_run_no_route", none⟩], 0⟩
        else ⟨.error (.configError selection_reason missing_requirements), posts, [], 0⟩
      else if safety_errors ≠ [] then
        ⟨.error (.valueError ("x publish safety checks failed: "
          ++ String.intercalate "; " safety_errors)), posts, [], 0⟩
      else if mode = "manual" ∨ route = "manual" then
        finishPost posts receipt_dir post_date_jst posted_at mode "manual"
          "manual_ready" none "manual mode: no external post executed" draft_path
          draft_id text_hash text selection_reason duplicate_result
          missing_requirements force 0
      else
        match httpOutcome with
        | .error msg =>
          let failure_reason := msg.take 400
          let postsNew :=
            match record_x_post posts
                { post_date_jst := post_date_jst, posted_at := posted_at,
                  mode := mode, route := (if route = "" then "none" else route),
                  status := "failed", draft_id := draft_id, text_hash := text_hash,
                  post_id := none, failure_reason := some failure_reason,
                  response_id := none, response_body := some failure_reason }
                force with
            | .ok p => p
            | .error _ => posts
          ⟨.error (.external msg), postsNew, [], 1⟩
        | .ok (rid, body) =>
          finishPost posts receipt_dir post_date_jst posted_at mode route "posted"
            rid body draft_path draft_id text_hash text selection_reason
            duplicate_result missing_requirements force 1

/-- `x_draft.XDraftCandidate`. -/
structure XDraftCandidate where
  score : Nat
  title : String
  organization : String
  url : String
  published_at : Option String
  fetched_at : String
deriving Repr, DecidableEq

/-- `x_draft.XDraftResult`, with `output_path` as the path string. -/
structure XDraftResult where
  post_date_jst : String
  output_path : String
  content : String
  item_count : Nat
  skipped : Bool
deriving Repr, DecidableEq

/-- `x_draft._trim`: strip, and cut to `limit` characters, marking the
cut with a trailing ellipsis when `limit > 1`. -/
def trimTo (value : String) (limit : Nat) : String :=
  let text := pyStripStr value
  if text.length ≤ limit then text
  else if limit ≤ 1 then String.mk (text.data.take limit)
  else String.mk (text.data.take (limit - 1)) ++ "…"

/-- `x_draft._make_header`. -/
def makeHeader (post_date_jst : String) : List String :=
  ["【本日の注目公告 / 無料版】" ++ post_date_jst ++ " JST",
   "上位案件（ルールベース抽出）"]

/-- The candidate loop of `x_draft.build_x_post_content`: append
numbered lines while the joined draft (lines so far, the next line and
the footer) stays within 280 characters; the first overflow breaks. -/
def xdraftFill (footer : List String) :
    List XDraftCandidate → Nat → List String → Nat → List String × Nat
  | [], _, lines, count => (lines, count)
  | cand :: rest, index, lines, count =>
    let line := toString index ++ ". " ++ trimTo cand.title 36 ++ "（" ++
      trimTo cand.organization 14 ++ "）"
    if 280 < (String.intercalate "\n" (lines ++ [line] ++ footer)).length then
      (lines, count)
    else xdraftFill footer rest (index + 1) (lines ++ [line]) (count + 1)

/-- `x_draft.build_x_post_content`. -/
def build_x_post_content (post_date_jst : String)
    (candidates : List XDraftCandidate) (top_n : Int) (lp_url : String) :
    Except String (String × Nat) :=
  if pyStripStr lp_url = "" then .error "lp_url is required"
  else if top_n ≤ 0 then .error "top_n must be > 0"
  else
    let footer := ["詳細（有料版）: " ++ pyStripStr lp_url, "#入札 #公募 #官公庁"]
    let lc := xdraftFill footer (candidates.take top_n.toNat) 1
      (makeHeader post_date_jst) 0
    let lines := if lc.2 = 0 then
      lc.1 ++ ["本日は無料版に掲載する新規案件がありません。"] else lc.1
    let content := String.intercalate "\n" (lines ++ footer)
    if 280 < content.length then
      .error ("x draft content exceeds 280 characters: len=" ++
        toString content.length ++ " lp_url=" ++ lp_url)
    else .ok (content, lc.2)

/-- `SQLiteStore.has_x_draft_for_date`: a `SELECT 1` by date. -/
def has_x_draft_for_date (drafts : List XDraftRow) (d : String) : Bool :=
  drafts.any (fun r => r.post_date_jst == d)

/-- `COALESCE(published_at, fetched_at)` of an item row. -/
def coalescePF (i : ItemRow) : String := i.published_at.getD i.fetched_at

/-- The `ORDER BY score DESC, COALESCE(published_at, fetched_at) DESC,
id DESC` comparison of `top_delivered_items`, on (item row, max score)
pairs. -/
def topLE (a b : ItemRow × Nat) : Prop :=
  b.2 < a.2 ∨ (a.2 = b.2 ∧ (strLt (coalescePF b.1) (coalescePF a.1) = true ∨
    (coalescePF a.1 = coalescePF b.1 ∧ b.1.id ≤ a.1.id)))

instance : DecidableRel topLE := fun a b => by
  unfold topLE; infer_instance

/-- `SQLiteStore.top_delivered_items`: deliveries joined to items inside
the half-open `delivered_at` window, grouped per item with `MAX(score)`,
ordered by score descending, coalesced timestamp descending, id
descending, and limited. -/
def top_delivered_items (items : List ItemRow) (deliveries : List DeliveryRow)
    (delivered_at_from delivered_at_to : String) (limit : Int) :
    Except String (List XDraftCandidate) :=
  if limit ≤ 0 then .error "limit must be > 0"
  else
    let window := deliveries.filter (fun d =>
      !strLt d.delivered_at delivered_at_from &&
      strLt d.delivered_at delivered_at_to)
    let grouped := items.filterMap (fun i =>
      match (window.filter (fun d => d.item_id == i.id)).map (fun d => d.score) with
      | [] => none
      | s :: ss => some (i, ss.foldl max s))
    let sorted := grouped.insertionSort topLE
    .ok ((sorted.take limit.toNat).map (fun p =>
      { score := p.2, title := p.1.title, organization := p.1.organization,
        url := p.1.url, published_at := p.1.published_at,
        fetched_at := p.1.fetched_at }))

/-- `x_draft.generate_x_draft`, with the store tables, the current
content of the output file (`none` when absent) and the JST-derived
date and window strings passed explicitly.  Returns the result, the
updated `x_drafts` table and the file content after the call (`none`
when never written). -/
def generate_x_draft (drafts : List XDraftRow) (items : List ItemRow)
    (deliveries : List DeliveryRow) (outputFile : Option String)
    (output_dir lp_url : String) (top_n : Int)
    (post_date_jst start_utc end_utc generated_at : String) (force : Bool) :
    Except String (XDraftResult × List XDraftRow × Option String) :=
  let output_path := output_dir ++ "/" ++ post_date_jst ++ ".txt"
  if has_x_draft_for_date drafts post_date_jst && !force then
    .ok ({ post_date_jst := post_date_jst, output_path := output_path,
           content := outputFile.getD "", item_count := 0, skipped := true },
         drafts, outputFile)
  else
    match top_delivered_items items deliveries start_utc end_utc
        (max (top_n * 3) top_n) with
    | .error e => .error e
    | .ok candidates =>
      match build_x_post_content post_date_jst candidates top_n lp_url with
      | .error e => .error e
      | .ok pr =>
        match record_x_draft drafts post_date_jst generated_at top_n.toNat
            pr.2 lp_url pr.1 force with
        | .error e => .error e
        | .ok drafts2 =>
          .ok ({ post_date_jst := post_date_jst, output_path := output_path,
                 content := pr.1, item_count := pr.2, skipped := false },
               drafts2, some (pr.1 ++ "\n"))

/-- The row `record_x_draft` inserts into an `x_drafts` table that has
no row yet for the date. -/
def freshDraftRow (drafts : List XDraftRow) (d g : String) (tn ic : Nat)
    (lp c : String) : XDraftRow :=
  { id := (drafts.map (fun r => r.id)).foldl max 0 + 1, post_date_jst := d,
    generated_at := g, top_n := tn, item_count := ic, lp_url := lp,
    content := c }

/-- The table `record_x_draft` leaves when overwriting the existing row
for a date: every row for the date is replaced in place, keeping its
id. -/
def overwriteDrafts (drafts : List XDraftRow) (d g : String) (tn ic : Nat)
    (lp c : String) : List XDraftRow :=
  drafts.map (fun r =>
    if r.post_date_jst == d then
      ({ id := r.id, post_date_jst := d, generated_at := g, top_n := tn,
         item_count := ic, lp_url := lp, content := c } : XDraftRow)
    else r)

/-- The draft text generated for 2026-02-16 when no candidate survives
(computed by `build_x_post_content` on an empty candidate list). -/
def c9Content : String :=
  "【本日の注目公告 / 無料版】2026-02-16 JST\n上位案件（ルールベース抽出）\n本日は無料版に掲載する新規案件がありません。\n詳細（有料版）: https://example.com/lp\n#入札 #公募 #官公庁"

/-- The `x_drafts` row recorded by that generation. -/
def c9Draft : XDraftRow :=
  { id := 1, post_date_jst := "2026-02-16", generated_at := "g", top_n := 5,
    item_count := 0, lp_url := "https://example.com/lp", content := c9Content }

/-- `domain.SourceFailure`. -/
structure SourceFailure where
  source_id : String
  source_url : String
  message : String
deriving Repr, DecidableEq

/-- A row of the `subscribers` table (`storage.SCHEMA_SQL`). -/
structure SubscriberRow where
  id : Nat
  email : String
  email_norm : String
  status : String
  plan : String
  keyword_sets : String
  created_at : String
  updated_at : String
deriving Repr, DecidableEq

/-- The `ORDER BY email_norm ASC` comparison of
`active_subscriber_emails`. -/
def emailNormLE (a b : SubscriberRow) : Prop := a.email_norm ≤ b.email_norm

instance : DecidableRel emailNormLE := fun a b =>
  inferInstanceAs (Decidable (a.email_norm ≤ b.email_norm))

/-- `SQLiteStore.active_subscriber_emails`: emails of the rows with
status `active`, ordered by `email_norm`. -/
def active_subscriber_emails (subs : List SubscriberRow) : List String :=
  ((subs.filter (fun s => s.status == "active")).insertionSort
    emailNormLE).map (fun s => s.email)

/-- `pipeline._resolve_recipients`: the active subscribers, with the
admin appended when copying to the admin is on or the list is empty,
deduplicated keeping first occurrences. -/
def resolve_recipients (active : List String) (admin_email : String)
    (send_admin_copy : Bool) : List String :=
  dedupeKeepFirst
    (if send_admin_copy || active.isEmpty then active ++ [admin_email]
     else active)

/-- `SQLiteStore.upsert_item`: `INSERT OR IGNORE` keyed by the
`UNIQUE url_key`, else an `UPDATE` merging `published_at` and
`deadline_at` through `COALESCE`; returns the table and the id selected
by `url_key`.  The autoincrement id is modelled as max existing id
plus one. -/
def upsert_item (items : List ItemRow) (item : FeedItem) : List ItemRow × Nat :=
  let url_key := stable_url_key item.url
  match items.find? (fun r => r.url_key == url_key) with
  | some existing =>
    (items.map (fun r =>
      if r.url_key == url_key then
        { r with
          source_id := item.source_id, organization := item.organization,
          title := item.title, url := item.url,
          published_at := (match item.published_at with
            | some p => some p.iso
            | none => r.published_at),
          deadline_at := (match item.deadline_at with
            | some d => some d
            | none => r.deadline_at),
          fetched_at := item.fetched_at.iso }
      else r), existing.id)
  | none =>
    let newId := (items.map (fun i => i.id)).foldl max 0 + 1
    (items ++
      [{ id := newId, source_id := item.source_id,
         organization := item.organization, title := item.title,
         url := item.url, url_key := url_key,
         published_at := item.published_at.map (fun p => p.iso),
         deadline_at := item.deadline_at, fetched_at := item.fetched_at.iso }],
     newId)

/-- `pipeline._attach_item_ids`: upsert every fetched item in order and
map its url to the resulting id. -/
def attach_item_ids (items : List ItemRow) (feedItems : List FeedItem) :
    List ItemRow × List (String × Nat) :=
  feedItems.foldl (fun acc item =>
    let up := upsert_item acc.1 item
    (up.1, dictSet acc.2 item.url up.2)) (items, [])

/-- `SQLiteStore.delivered_item_ids`: the item ids among `itemIds`
already delivered for the keyword set (membership in the returned
set is what callers use). -/
def delivered_item_ids (deliveries : List DeliveryRow) (ksid : String)
    (itemIds : List Nat) : List Nat :=
  if itemIds.isEmpty then []
  else (deliveries.filter (fun d =>
    d.keyword_set_id == ksid && itemIds.contains d.item_id)).map
    (fun d => d.item_id)

/-- `pipeline._filter_new_records`. -/
def filter_new_records (deliveries : List DeliveryRow)
    (keyword_set : KeywordSetConfig)
    (scored_by_set : List (String × List ScoredItem))
    (item_ids_by_url : List (String × Nat)) : List StoredScoredItem :=
  let stored := (dictGet scored_by_set keyword_set.id []).filterMap
    (fun scored =>
      match item_ids_by_url.lookup scored.item.url with
      | some iid => some { item_id := iid, scored_item := scored }
      | none => none)
  if stored.isEmpty then []
  else
    let delivered := delivered_item_ids deliveries keyword_set.id
      (stored.map (fun r => r.item_id))
    let newRecords := stored.filter (fun r => !delivered.contains r.item_id)
    let deduped := newRecords.foldl
      (fun acc r =>
        if acc.any (fun x => x.item_id == r.item_id) then acc else acc ++ [r])
      []
    deduped.take keyword_set.top_n

/-- `pipeline.PipelineResult` (the recipients tuple as a list). -/
structure PipelineResult where
  run_id : String
  fetched_count : Nat
  selected_by_set : List (String × List StoredScoredItem)
  failures : List SourceFailure
  digest_sent : Bool
  recipients : List String
deriving Repr, DecidableEq

/-- One `run_pipeline` call's observable outcome: the returned result
(or the raised error), the `items` and `deliveries` tables after the
call, and the recipients to whom a digest mail was actually sent. -/
structure PipelineOutcome where
  result : Except String PipelineResult
  items : List ItemRow
  deliveries : List DeliveryRow
  mailsSent : List String
deriving Repr

/-- `pipeline.run_pipeline`, with the configured keyword sets, the
fetched items and failures, the store tables and the SMTP availability
passed explicitly; `mailOracle` gives each recipient's send outcome
(`none` on success, the exception text otherwise), abstracting the
digest text, which reaches only the mail bodies.  `runId`,
`delivered_at` and `now` stand for the wall-clock values drawn during
the run. -/
def run_pipeline (keywordSets : List KeywordSetConfig)
    (fetchedItems : List FeedItem) (failures : List SourceFailure)
    (itemsTable : List ItemRow) (deliveriesTable : List DeliveryRow)
    (subscribers : List SubscriberRow) (admin_email : String)
    (smtpConfigured : Bool) (dry_run : Bool) (max_total_items : Int)
    (send_admin_copy : Bool) (runId : String) (delivered_at : String)
    (now : PyDateTime) (mailOracle : String → Option String) :
    PipelineOutcome :=
  if max_total_items ≤ 0 then
    { result := .error "max_total_items must be > 0", items := itemsTable,
      deliveries := deliveriesTable, mailsSent := [] }
  else
    let scored_by_set := scoreItems fetchedItems keywordSets
    let att := attach_item_ids itemsTable fetchedItems
    let selected0 := keywordSets.foldl (fun acc ks =>
      if ks.enabled then
        dictSet acc ks.id (filter_new_records deliveriesTable ks scored_by_set att.2)
      else acc) []
    let selected := applyTotalLimit selected0 keywordSets max_total_items
    let recipients := resolve_recipients (active_subscriber_emails subscribers)
      admin_email send_admin_copy
    if dry_run then
      match purgeOlderThan att.1 deliveriesTable 30 now with
      | .error e =>
        { result := .error e, items := att.1,
          deliveries := deliveriesTable, mailsSent := [] }
      | .ok purged =>
        { result := .ok
            { run_id := runId, fetched_count := fetchedItems.length,
              selected_by_set := selected, failures := failures,
              digest_sent := false, recipients := recipients },
          items := purged.1, deliveries := purged.2, mailsSent := [] }
    else if !smtpConfigured then
      { result := .error "SMTP config is required when dry_run is false",
        items := att.1, deliveries := deliveriesTable, mailsSent := [] }
    else
      let sent := recipients.filter (fun r => (mailOracle r).isNone)
      let send_errors := recipients.filterMap (fun r =>
        (mailOracle r).map (fun e => r ++ ": " ++ e))
      if !send_errors.isEmpty then
        { result := .error ("digest mail failed for one or more recipients: " ++
            String.intercalate "; " send_errors),
          items := att.1, deliveries := deliveriesTable, mailsSent := sent }
      else
        let deliveries2 := selected.foldl
          (fun acc p => recordDeliveries acc runId p.1 p.2 delivered_at)
          deliveriesTable
        match purgeOlderThan att.1 deliveries2 30 now with
        | .error e =>
          { result := .error e, items := att.1,
            deliveries := deliveries2, mailsSent := sent }
        | .ok purged =>
          { result := .ok
              { run_id := runId, fetched_count := fetchedItems.length,
                selected_by_set := selected, failures := failures,
                digest_sent := true, recipients := recipients },
            items := purged.1, deliveries := purged.2, mailsSent := sent }

/-- A delivery row far older than any 30-day cutoff. -/
def c3OldDelivery : DeliveryRow :=
  { run_id := "run-0", keyword_set_id := "set-a", item_id := 1, score := 10,
    delivered_at := "2020-01-01T00:00:00+00:00" }

/-- A run instant for concrete pipeline runs. -/
def c3Now : PyDateTime := { epoch := 0, iso := "2026-02-16T00:00:00+00:00" }

/-- The outcome of the concrete dry run used as a counterexample. -/
def c3Out : PipelineOutcome :=
  { result := .ok
      { run_id := "run-1", fetched_count := 0,
        selected_by_set := [], failures := [], digest_sent := false,
        recipients := ["admin@example.com"] },
    items := [], deliveries := [], mailsSent := [] }

lemma dictSet_fresh (d : List (String × α)) (k : String) (v : α)
    (h : k ∉ keysOf d) : dictSet d k v = d ++ [(k, v)] := by
  unfold dictSet
  have hfalse : d.any (fun p => p.1 == k) = false := by
    rw [List.any_eq_false]
    intro p hp
    simp only [beq_iff_eq]
    intro hpk
    exact h (by simpa [keysOf, hpk] using List.mem_map_of_mem (fun p => p.1) hp)
  simp [hfalse]

lemma greedyFillSpec_total (l : List (String × List α)) (budget : Nat) :
    ((greedyFillSpec l budget).map (fun p => p.2.length)).sum
      = min budget ((l.map (fun p => p.2.length)).sum) := by
  induction l generalizing budget with
  | nil => simp [greedyFillSpec]
  | cons p rest ih =>
    obtain ⟨k, rs⟩ := p
    simp only [greedyFillSpec, List.map_cons, List.sum_cons, ih, List.length_take]
    omega

lemma applyTotalLimitGo_eq (selected : List (String × List StoredScoredItem)) :
    ∀ (ks : List KeywordSetConfig) (remaining : Int)
      (limited : List (String × List StoredScoredItem)),
      0 ≤ remaining →
      ((ks.filter (fun k => k.enabled)).map (fun k => k.id)).Nodup →
      (∀ k ∈ ks, k.enabled = true → k.id ∉ keysOf limited) →
      applyTotalLimitGo selected ks remaining limited
        = limited ++ greedyFillSpec (enabledEligible selected ks) remaining.toNat := by
  intro ks
  induction ks with
  | nil => intro remaining limited _ _ _; simp [applyTotalLimitGo, enabledEligible, greedyFillSpec]
  | cons k rest ih =>
    intro remaining limited hrem hnd hfresh
    by_cases hk : k.enabled
    · have hfilter :
          (k :: rest).filter (fun k => k.enabled) = k :: rest.filter (fun k => k.enabled) := by
        simp [List.filter_cons, hk]
      have hndRest : ((rest.filter (fun k => k.enabled)).map (fun k => k.id)).Nodup := by
        rw [hfilter] at hnd
        exact (List.nodup_cons.mp (by simpa using hnd)).2
      have hkNotRest : k.id ∉ (rest.filter (fun k => k.enabled)).map (fun k => k.id) := by
        rw [hfilter] at hnd
        exact (List.nodup_cons.mp (by simpa using hnd)).1
      have hkfresh : k.id ∉ keysOf limited := hfresh k (List.mem_cons_self k rest) hk
      have hfreshRest : ∀ (v : List StoredScoredItem), ∀ k' ∈ rest, k'.enabled = true →
          k'.id ∉ keysOf (limited ++ [(k.id, v)]) := by
        intro v k' hk' hk'en
        have h1 : k'.id ∉ keysOf limited := hfresh k' (List.mem_cons_of_mem _ hk') hk'en
        have h2 : k'.id ≠ k.id := by
          intro hcontra
          apply hkNotRest
          rw [← hcontra]
          exact List.mem_map_of_mem (fun k => k.id) (List.mem_filter.mpr ⟨hk', hk'en⟩)
        simp [keysOf] at h1 ⊢
        exact ⟨h1, fun h => absurd h h2⟩
      by_cases hr : remaining ≤ 0
      · have hzero : remaining = 0 := le_antisymm hr hrem
        subst hzero
        have : applyTotalLimitGo selected (k :: rest) 0 limited
            = applyTotalLimitGo selected rest 0 (dictSet limited k.id []) := by
          simp [applyTotalLimitGo, hk]
        rw [this, dictSet_fresh _ _ _ hkfresh,
          ih 0 (limited ++ [(k.id, [])]) le_rfl hndRest (hfreshRest [])]
        simp [enabledEligible, hfilter, greedyFillSpec]
      · push_neg at hr
        have hstep : applyTotalLimitGo selected (k :: rest) remaining limited
            = applyTotalLimitGo selected rest
                (remaining - ((dictGet selected k.id []).take remaining.toNat).length)
                (dictSet limited k.id ((dictGet selected k.id []).take remaining.toNat)) := by
          rw [applyTotalLimitGo]
          simp only [hk, Bool.not_true, Bool.false_eq_true, if_false]
          rw [if_neg (by omega)]
        set recs := dictGet selected k.id [] with hrecs
        set lr := recs.take remaining.toNat with hlr
        have hlen : lr.length ≤ remaining.toNat := by
          rw [hlr]; exact le_trans (List.length_take_le _ _) le_rfl
        have hrem' : (0 : Int) ≤ remaining - lr.length := by omega
        have htoNat : (remaining - (lr.length : Int)).toNat = remaining.toNat - lr.length := by
          omega
        rw [hstep, dictSet_fresh _ _ _ hkfresh,
          ih _ (limited ++ [(k.id, lr)]) hrem' hndRest (hfreshRest lr)]
        simp only [enabledEligible, hfilter, List.map_cons, greedyFillSpec]
        rw [htoNat]
        simp [← hrecs, ← hlr]
    · have hfilter :
          (k :: rest).filter (fun k => k.enabled) = rest.filter (fun k => k.enabled) := by
        simp [List.filter_cons, hk]
      have : applyTotalLimitGo selected (k :: rest) remaining limited
          = applyTotalLimitGo selected rest remaining limited := by
        simp [applyTotalLimitGo, hk]
      rw [this, ih remaining limited hrem (by rwa [hfilter] at hnd)
        (fun k' hk' => hfresh k' (List.mem_cons_of_mem _ hk'))]
      simp [enabledEligible, hfilter]

/-- C5: with a positive global cap `N`, `_apply_total_limit` realises the
greedy in-declared-order allocation (earlier enabled sets filled first,
sets after budget exhaustion get the empty list), and the total number
of records kept across all enabled keyword sets is
`min N (total eligible)`. -/
theorem c5_apply_total_limit_cap (selected : List (String × List StoredScoredItem))
    (ks : List KeywordSetConfig) (N : Int) (hN : 0 < N)
    (hnd : ((ks.filter (fun k => k.enabled)).map (fun k => k.id)).Nodup) :
    applyTotalLimit selected ks N
        = greedyFillSpec (enabledEligible selected ks) N.toNat ∧
    ((applyTotalLimit selected ks N).map (fun p => p.2.length)).sum
        = min N.toNat ((enabledEligible selected ks).map (fun p => p.2.length)).sum := by
  have h := applyTotalLimitGo_eq selected ks N [] (le_of_lt hN) hnd (by intro k _ _; simp [keysOf])
  constructor
  · simpa [applyTotalLimit] using h
  · rw [applyTotalLimit, h]
    simpa using greedyFillSpec_total (enabledEligible selected ks) N.toNat

lemma deliveryConflict_iff (rows : List DeliveryRow) (ksid : String) (itemId : Nat) :
    deliveryConflict rows ksid itemId = true ↔ 0 < countPair rows ksid itemId := by
  simp [deliveryConflict, countPair, List.any_eq_true, List.countP_pos_iff]

lemma insertDelivery_of_pos (rows : List DeliveryRow) (row : DeliveryRow)
    (h : 0 < countPair rows row.keyword_set_id row.item_id) :
    insertOrIgnoreDelivery rows row = rows := by
  unfold insertOrIgnoreDelivery
  rw [if_pos ((deliveryConflict_iff _ _ _).mpr h)]

lemma insertDelivery_of_zero (rows : List DeliveryRow) (row : DeliveryRow)
    (h : countPair rows row.keyword_set_id row.item_id = 0) :
    insertOrIgnoreDelivery rows row = rows ++ [row] := by
  unfold insertOrIgnoreDelivery
  rw [if_neg]
  rw [deliveryConflict_iff, h]
  omega

lemma countPair_append (rows1 rows2 : List DeliveryRow) (ksid : String) (itemId : Nat) :
    countPair (rows1 ++ rows2) ksid itemId
      = countPair rows1 ksid itemId + countPair rows2 ksid itemId :=
  List.countP_append _ _ _

/-- C4: starting from any table satisfying the
`UNIQUE(keyword_set_id, item_id)` invariant, recording the same
`(keyword-set, item)` pair twice — across two `record_deliveries` calls
or inside one call — leaves exactly one row for the pair, and the second
call is a no-op on the table. -/
theorem c4_record_deliveries_idempotent (rows : List DeliveryRow)
    (ks run1 run2 t1 t2 : String) (r1 r2 : StoredScoredItem)
    (hpair : r2.item_id = r1.item_id)
    (hinv : countPair rows ks r1.item_id ≤ 1) :
    countPair (recordDeliveries (recordDeliveries rows run1 ks [r1] t1) run2 ks [r2] t2)
        ks r1.item_id = 1 ∧
    recordDeliveries (recordDeliveries rows run1 ks [r1] t1) run2 ks [r2] t2
        = recordDeliveries rows run1 ks [r1] t1 ∧
    countPair (recordDeliveries rows run1 ks [r1, r2] t1) ks r1.item_id = 1 := by
  have hrow1 : recordDeliveries rows run1 ks [r1] t1
      = insertOrIgnoreDelivery rows
          { run_id := run1, keyword_set_id := ks, item_id := r1.item_id,
            score := r1.scored_item.score, delivered_at := t1 } := by
    simp [recordDeliveries]
  have hfirst : countPair (recordDeliveries rows run1 ks [r1] t1) ks r1.item_id = 1 := by
    rw [hrow1]
    rcases Nat.eq_zero_or_pos (countPair rows ks r1.item_id) with h0 | hpos
    · rw [insertDelivery_of_zero _ _ h0, countPair_append, h0]
      simp [countPair]
    · rw [insertDelivery_of_pos _ _ hpos]
      omega
  have hnoop : recordDeliveries (recordDeliveries rows run1 ks [r1] t1) run2 ks [r2] t2
      = recordDeliveries rows run1 ks [r1] t1 := by
    have : recordDeliveries (recordDeliveries rows run1 ks [r1] t1) run2 ks [r2] t2
        = insertOrIgnoreDelivery (recordDeliveries rows run1 ks [r1] t1)
            { run_id := run2, keyword_set_id := ks, item_id := r2.item_id,
              score := r2.scored_item.score, delivered_at := t2 } := by
      simp [recordDeliveries]
    rw [this, hpair, insertDelivery_of_pos]
    rw [hfirst]
    omega
  refine ⟨?_, hnoop, ?_⟩
  · rw [hnoop, hfirst]
  · have hsame : recordDeliveries rows run1 ks [r1, r2] t1
        = insertOrIgnoreDelivery
            (insertOrIgnoreDelivery rows
              { run_id := run1, keyword_set_id := ks, item_id := r1.item_id,
                score := r1.scored_item.score, delivered_at := t1 })
            { run_id := run1, keyword_set_id := ks, item_id := r2.item_id,
              score := r2.scored_item.score, delivered_at := t1 } := by
      simp [recordDeliveries]
    rw [hsame, hpair]
    have hfirst' := hfirst
    rw [hrow1] at hfirst'
    have hpos : 0 < countPair (insertOrIgnoreDelivery rows
        { run_id := run1, keyword_set_id := ks, item_id := r1.item_id,
          score := r1.scored_item.score, delivered_at := t1 }) ks r1.item_id := by
      omega
    rw [insertDelivery_of_pos (insertOrIgnoreDelivery rows
        { run_id := run1, keyword_set_id := ks, item_id := r1.item_id,
          score := r1.scored_item.score, delivered_at := t1 })
      { run_id := run1, keyword_set_id := ks, item_id := r1.item_id,
        score := r2.scored_item.score, delivered_at := t1 } hpos]
    exact hfirst'

/-- Witness for C4 at a concrete input. -/
theorem c4_record_deliveries_idempotent_witness :
    (witnessRecord 1 20).item_id = (witnessRecord 1 18).item_id ∧
    countPair [] "set-a" (witnessRecord 1 18).item_id ≤ 1 ∧
    countPair
        (recordDeliveries (recordDeliveries [] "run-1" "set-a" [witnessRecord 1 18] "t1")
          "run-2" "set-a" [witnessRecord 1 20] "t2") "set-a" 1 = 1 := by
  refine ⟨by decide, by decide, ?_⟩
  have h := (c4_record_deliveries_idempotent [] "set-a" "run-1" "run-2" "t1" "t2"
    (witnessRecord 1 18) (witnessRecord 1 20) (by decide) (by decide)).1
  exact h

/-- C7: purge succeeds for a positive window and removes exactly the
delivery rows below the cutoff and the items below the cutoff with no
surviving delivery reference; an item referenced by a surviving delivery
row is always kept, so referential integrity of `deliveries.item_id` is
preserved. -/
lemma strLt_iff (a b : String) : strLt a b = true ↔ a < b := by
  unfold strLt
  rw [decide_eq_true_eq]
  exact String.lt_iff_toList_lt.symm

lemma strLt_eq_false (a b : String) : strLt a b = false ↔ ¬ a < b := by
  unfold strLt
  rw [decide_eq_false_iff_not]
  exact not_congr String.lt_iff_toList_lt.symm

theorem c7_purge_preserves_referenced_items (items : List ItemRow)
    (deliveries : List DeliveryRow) (days : Int) (now : PyDateTime)
    (hdays : 0 < days)
    (href : ∀ d ∈ deliveries, ∃ i ∈ items, i.id = d.item_id) :
    ∃ items' deliveries',
      purgeOlderThan items deliveries days now = .ok (items', deliveries') ∧
      (∀ d : DeliveryRow, d ∈ deliveries' ↔
        d ∈ deliveries ∧ ¬(d.delivered_at < isoMinusDays now.iso days)) ∧
      (∀ i : ItemRow, i ∈ items' ↔
        i ∈ items ∧ ¬(i.fetched_at < isoMinusDays now.iso days ∧
          ∀ d ∈ deliveries', d.item_id ≠ i.id)) ∧
      (∀ i ∈ items, (∃ d ∈ deliveries', d.item_id = i.id) → i ∈ items') ∧
      (∀ d ∈ deliveries', ∃ i ∈ items', i.id = d.item_id) := by
  have hok : purgeOlderThan items deliveries days now
      = .ok (items.filter
          (fun i => !(strLt i.fetched_at (isoMinusDays now.iso days) &&
            !((deliveries.filter
                (fun d => !strLt d.delivered_at (isoMinusDays now.iso days))).any
              (fun d => d.item_id == i.id)))),
        deliveries.filter (fun d => !strLt d.delivered_at (isoMinusDays now.iso days))) := by
    unfold purgeOlderThan
    rw [if_neg (by omega)]
  refine ⟨_, _, hok, ?_, ?_, ?_, ?_⟩
  · intro d
    rw [List.mem_filter, Bool.not_eq_true', strLt_eq_false]
  · intro i
    simp only [List.mem_filter, Bool.not_eq_true', Bool.and_eq_false_iff,
      Bool.not_eq_false', List.any_eq_true, beq_iff_eq, strLt_eq_false,
      strLt_iff]
    constructor
    · rintro ⟨hi, h⟩
      refine ⟨hi, ?_⟩
      rintro ⟨hcut, hnone⟩
      rcases h with h | h
      · exact h hcut
      · obtain ⟨d, hd, hdi⟩ := h
        exact hnone d hd hdi
    · rintro ⟨hi, h⟩
      refine ⟨hi, ?_⟩
      by_cases hcut : i.fetched_at < isoMinusDays now.iso days
      · right
        by_contra hcon
        push_neg at hcon
        exact h ⟨hcut, fun d hd hdi => hcon d hd hdi⟩
      · left; exact hcut
  · intro i hi hd
    obtain ⟨d, hdmem, hdi⟩ := hd
    rw [List.mem_filter]
    refine ⟨hi, ?_⟩
    have hany : ((deliveries.filter
        (fun d => !strLt d.delivered_at (isoMinusDays now.iso days))).any
          (fun d => d.item_id == i.id)) = true := by
      rw [List.any_eq_true]
      exact ⟨d, hdmem, by simp [hdi]⟩
    rw [hany]
    simp
  · intro d hd
    have hdmem : d ∈ deliveries := (List.mem_filter.mp hd).1
    obtain ⟨i, hi, hii⟩ := href d hdmem
    refine ⟨i, ?_, hii⟩
    rw [List.mem_filter]
    refine ⟨hi, ?_⟩
    have hany : ((deliveries.filter
        (fun d => !strLt d.delivered_at (isoMinusDays now.iso days))).any
          (fun dd => dd.item_id == i.id)) = true := by
      rw [List.any_eq_true]
      exact ⟨d, hd, by simp [hii]⟩
    rw [hany]
    simp

/-- Witness for C7 at a concrete input: an old item kept alive by a
recent delivery. -/
theorem c7_purge_preserves_referenced_items_witness :
    (0 : Int) < 30 ∧
    (∀ d ∈ [({ run_id := "r", keyword_set_id := "set-a", item_id := 1, score := 10,
                 delivered_at := "2026-02-10T00:00:00+00:00" } : DeliveryRow)],
      ∃ i ∈ [witnessItemRow 1 "2020-01-01T00:00:00+00:00",
             witnessItemRow 2 "2020-01-01T00:00:00+00:00"], i.id = d.item_id) ∧
    ∃ items' deliveries',
      purgeOlderThan
          [witnessItemRow 1 "2020-01-01T00:00:00+00:00",
           witnessItemRow 2 "2020-01-01T00:00:00+00:00"]
          [{ run_id := "r", keyword_set_id := "set-a", item_id := 1, score := 10,
             delivered_at := "2026-02-10T00:00:00+00:00" }]
          30 { epoch := 0, iso := "2026-02-16T00:00:00+00:00" }
        = .ok (items', deliveries') ∧
      (∀ d ∈ deliveries', ∃ i ∈ items', i.id = d.item_id) := by
  refine ⟨by norm_num, by decide, ?_⟩
  obtain ⟨items', deliveries', hok, -, -, -, hint⟩ := c7_purge_preserves_referenced_items
    [witnessItemRow 1 "2020-01-01T00:00:00+00:00",
     witnessItemRow 2 "2020-01-01T00:00:00+00:00"]
    [{ run_id := "r", keyword_set_id := "set-a", item_id := 1, score := 10,
       delivered_at := "2026-02-10T00:00:00+00:00" }]
    30 { epoch := 0, iso := "2026-02-16T00:00:00+00:00" } (by norm_num) (by decide)
  exact ⟨items', deliveries', hok, hint⟩

/-- Witness for C5 at a concrete input: two sets with 3 + 2 eligible
records and a cap of 4. -/
theorem c5_apply_total_limit_cap_witness :
    (0 : Int) < 4 ∧
    (([witnessKeywordSet "set-a", witnessKeywordSet "set-b"].filter
        (fun k => k.enabled)).map (fun k => k.id)).Nodup ∧
    (applyTotalLimit
        [("set-a", [witnessRecord 1 20, witnessRecord 2 19, witnessRecord 3 18]),
         ("set-b", [witnessRecord 4 17, witnessRecord 5 16])]
        [witnessKeywordSet "set-a", witnessKeywordSet "set-b"] 4).map
        (fun p => p.2.length) = [3, 1] := by
  refine ⟨by norm_num, by decide, ?_⟩
  have h := (c5_apply_total_limit_cap
    [("set-a", [witnessRecord 1 20, witnessRecord 2 19, witnessRecord 3 18]),
     ("set-b", [witnessRecord 4 17, witnessRecord 5 16])]
    [witnessKeywordSet "set-a", witnessKeywordSet "set-b"] 4 (by norm_num) (by decide)).1
  rw [h]
  decide
lemma lookup_mem {α : Type} {d : List (String × α)} {k : String} {v : α}
    (h : d.lookup k = some v) : (k, v) ∈ d := by
  induction d with
  | nil => simp [List.lookup] at h
  | cons p rest ih =>
    rw [List.lookup] at h
    cases hk : k == p.1 with
    | false =>
      rw [hk] at h
      exact List.mem_cons_of_mem _ (ih h)
    | true =>
      rw [hk] at h
      have hv : some p.2 = some v := h
      obtain rfl : v = p.2 := by injection hv with hh; exact hh.symm
      have hkp : k = p.1 := beq_iff_eq.mp hk
      rw [hkp]
      exact List.mem_cons_self _ _

lemma dictSet_mem {α : Type} {d : List (String × α)} {k : String} {v : α}
    {q : String × α} (h : q ∈ dictSet d k v) : q ∈ d ∨ q = (k, v) := by
  unfold dictSet at h
  split at h
  · obtain ⟨p, hp, hq⟩ := List.mem_map.mp h
    by_cases hpk : p.1 == k
    · right
      rw [if_pos hpk] at hq
      rw [← hq, beq_iff_eq.mp hpk]
    · left
      rw [if_neg hpk] at hq
      rw [← hq]
      exact hp
  · rcases List.mem_append.mp h with h | h
    · left; exact h
    · right; simpa using h

lemma foldl_inv {β γ : Type} (P : β → Prop) (f : β → γ → β) :
    ∀ (xs : List γ) (acc : β), (∀ acc x, x ∈ xs → P acc → P (f acc x)) →
      P acc → P (xs.foldl f acc) := by
  intro xs
  induction xs with
  | nil => intro acc _ hacc; simpa using hacc
  | cons x rest ih =>
    intro acc hstep hacc
    rw [List.foldl_cons]
    exact ih _ (fun a y hy => hstep a y (List.mem_cons_of_mem _ hy))
      (hstep acc x (List.mem_cons_self _ _) hacc)

lemma sortLE_iff_claimOrder (a b : ScoredItem) : sortLE a b ↔ claimOrder a b := by
  unfold sortLE sortKeyL claimOrder
  rw [Prod.Lex.le_iff, Prod.Lex.le_iff, Prod.Lex.le_iff, Prod.Lex.le_iff]
  simp [neg_lt_neg_iff, neg_inj, Nat.cast_lt, Nat.cast_inj]

lemma scoreFilled_inv (items : List FeedItem) (keywordSets : List KeywordSetConfig) :
    ∀ q ∈ scoreFilled items keywordSets, ∀ s ∈ q.2,
      ∃ k ∈ keywordSets, k.id = q.1 ∧
        s.score = (k.required.filter
            (fun t => contains_term (normalize_text s.item.title) t)).length * 10
          + (k.boost.filter
            (fun t => contains_term (normalize_text s.item.title) t)).length * 3 := by
  unfold scoreFilled
  refine foldl_inv
    (fun (results : List (String × List ScoredItem)) => ∀ q ∈ results, ∀ s ∈ q.2,
      ∃ k ∈ keywordSets, k.id = q.1 ∧
        s.score = (k.required.filter
            (fun t => contains_term (normalize_text s.item.title) t)).length * 10
          + (k.boost.filter
            (fun t => contains_term (normalize_text s.item.title) t)).length * 3)
    _ items _ ?_ ?_
  · intro results item _ hres
    refine foldl_inv
      (fun (results : List (String × List ScoredItem)) => ∀ q ∈ results, ∀ s ∈ q.2,
        ∃ k ∈ keywordSets, k.id = q.1 ∧
          s.score = (k.required.filter
              (fun t => contains_term (normalize_text s.item.title) t)).length * 10
            + (k.boost.filter
              (fun t => contains_term (normalize_text s.item.title) t)).length * 3)
      _ keywordSets _ ?_ hres
    intro acc k hk hacc
    unfold scoreStep
    split
    · exact hacc
    · split
      · exact hacc
      · split
        · exact hacc
        · intro q hq s hs
          rcases dictSet_mem hq with hq | hq
          · exact hacc q hq s hs
          · subst hq
            rcases List.mem_append.mp hs with hs | hs
            · rcases hlook : acc.lookup k.id with _ | old
              · rw [dictGet, hlook] at hs
                simp at hs
              · rw [dictGet, hlook] at hs
                exact hacc (k.id, old) (lookup_mem hlook) s hs
            · have hseq : s = ⟨k.id, k.name, item,
                  (k.required.filter
                      (fun t => contains_term (normalize_text item.title) t)).length * 10
                    + (k.boost.filter
                      (fun t => contains_term (normalize_text item.title) t)).length * 3,
                  k.required.filter
                    (fun t => contains_term (normalize_text item.title) t),
                  k.boost.filter
                    (fun t => contains_term (normalize_text item.title) t)⟩ := by
                simpa using hs
              subst hseq
              exact ⟨k, hk, rfl, rfl⟩
  · intro q hq s hs
    obtain ⟨k, _, hkq⟩ := List.mem_map.mp hq
    rw [← hkq] at hs
    simp at hs

/-- C6: every scored record surviving the gates carries score
`10 × required-hits + 3 × boost-hits` for its keyword set, and every
keyword set's result list is sorted by score descending, published
timestamp descending (missing treated as zero), fetched timestamp
descending, then organization and title ascending. -/
theorem c6_score_formula_and_sort_order (items : List FeedItem)
    (keywordSets : List KeywordSetConfig) (ksid : String) (l : List ScoredItem)
    (hmem : (ksid, l) ∈ scoreItems items keywordSets) :
    l.Sorted claimOrder ∧
    ∀ s ∈ l, ∃ k ∈ keywordSets, k.id = ksid ∧
      s.score = 10 * (k.required.filter
          (fun t => contains_term (normalize_text s.item.title) t)).length
        + 3 * (k.boost.filter
          (fun t => contains_term (normalize_text s.item.title) t)).length := by
  unfold scoreItems at hmem
  obtain ⟨p, hp, heq⟩ := List.mem_map.mp hmem
  have hks : p.1 = ksid := congrArg Prod.fst heq
  have hl : p.2.insertionSort sortLE = l := congrArg Prod.snd heq
  constructor
  · rw [← hl]
    exact (List.sorted_insertionSort sortLE p.2).imp
      (fun h => (sortLE_iff_claimOrder _ _).mp h)
  · intro s hs
    have hs' : s ∈ p.2 := (List.mem_insertionSort sortLE).mp (hl ▸ hs)
    obtain ⟨k, hk, hkid, hscore⟩ := scoreFilled_inv items keywordSets p hp s hs'
    exact ⟨k, hk, hks ▸ hkid, by omega⟩

/-- Witness for C6 at a concrete input: one item whose title hits both
required terms and one boost term, scoring 23. -/
theorem c6_score_formula_and_sort_order_witness :
    ("set-a", [({ keyword_set_id := "set-a"
                  keyword_set_name := "A"
                  item := { witnessItem with title := "ops cloud c" }
                  score := 23
                  required_matches := ["ops", "cloud"]
                  boost_matches := ["c"] } : ScoredItem)]) ∈
        scoreItems [{ witnessItem with title := "ops cloud c" }]
          [{ witnessKeywordSet "set-a" with required := ["ops", "cloud"], exclude := ["zz"] }] ∧
    ∀ s ∈ [({ keyword_set_id := "set-a"
              keyword_set_name := "A"
              item := { witnessItem with title := "ops cloud c" }
              score := 23
              required_matches := ["ops", "cloud"]
              boost_matches := ["c"] } : ScoredItem)],
      ∃ k ∈ [{ witnessKeywordSet "set-a" with required := ["ops", "cloud"], exclude := ["zz"] }],
        k.id = "set-a" ∧
        s.score = 10 * (k.required.filter
            (fun t => contains_term (normalize_text s.item.title) t)).length
          + 3 * (k.boost.filter
            (fun t => contains_term (normalize_text s.item.title) t)).length := by
  refine ⟨by decide, ?_⟩
  exact (c6_score_formula_and_sort_order
    [{ witnessItem with title := "ops cloud c" }]
    [{ witnessKeywordSet "set-a" with required := ["ops", "cloud"], exclude := ["zz"] }]
    "set-a" _ (by decide)).2

/-- C10 counterexample: the claim says `extract_deadline` "returns none
only when the text contains no calendar-valid match of any pattern".
On this input the first pattern's first match is the calendar-invalid
`2024.02.30`, so the code abandons the pattern and returns none even
though the calendar-valid match `2024.03.01` of the same pattern occurs
later in the text. -/
theorem c10_extract_deadline_counterexample :
    extract_deadline "2024.02.30 foo 2024.03.01" = none ∧
    anyValidMatch none (normalize_text "2024.02.30 foo 2024.03.01").data = true := by
  constructor
  · decide
  · decide

/-- C10 amended: `extract_deadline` examines, for each pattern in
priority order, only that pattern's first (leftmost) match in the
normalized text: it returns the ISO date of the first pattern whose
first match is calendar-valid, and none when every pattern has no match
or a calendar-invalid first match; every returned string is the ISO
rendering of a calendar-valid date. -/
theorem c10_extract_deadline_first_match_per_pattern (text : String) :
    extract_deadline text
      = (patternResult matchP1At (normalize_text text).data).orElse
          (fun _ => patternResult matchP2At (normalize_text text).data) ∧
    ∀ s, extract_deadline text = some s →
      ∃ y m d, dateValid y m d = true ∧ s = isoDate y m d := by
  have hsound : ∀ (matchAt : List Char → Option (Nat × Nat × Nat)) (cs : List Char)
      (s : String), patternResult matchAt cs = some s →
      ∃ y m d, dateValid y m d = true ∧ s = isoDate y m d := by
    intro matchAt cs s
    unfold patternResult
    cases h : searchFrom matchAt none cs with
    | none => intro hc; simp at hc
    | some r =>
      obtain ⟨y, m, d⟩ := r
      intro hc
      by_cases hv : dateValid y m d = true
      · simp [hv] at hc
        exact ⟨y, m, d, hv, hc.symm⟩
      · simp [hv] at hc
  have heq : extract_deadline text
      = (patternResult matchP1At (normalize_text text).data).orElse
          (fun _ => patternResult matchP2At (normalize_text text).data) := by
    unfold extract_deadline patternResult
    cases h1 : searchFrom matchP1At none (normalize_text text).data with
    | none => simp [Option.orElse]
    | some r =>
      obtain ⟨y, m, d⟩ := r
      by_cases hv : dateValid y m d = true
      · simp [hv, Option.orElse]
      · simp [hv, Option.orElse]
  refine ⟨heq, ?_⟩
  intro s hs
  rw [heq] at hs
  cases hp : patternResult matchP1At (normalize_text text).data with
  | some v =>
    rw [hp] at hs
    simp [Option.orElse] at hs
    subst hs
    exact hsound _ _ _ hp
  | none =>
    rw [hp] at hs
    simp [Option.orElse] at hs
    exact hsound _ _ _ hs

/-- C8: two URLs that agree, after stripping and `urlsplit`, on scheme,
netloc and path, and whose non-tracking query pairs are equal as
multisets (they may differ in tracking-parameter presence and in
parameter order), canonicalize identically, so `stable_url_key` is
equal on them. -/
theorem c8_stable_url_key_tracking_invariant (s1 s2 : String)
    (hscheme : (urlsplit (String.mk (pyStrip s1.data))).scheme
      = (urlsplit (String.mk (pyStrip s2.data))).scheme)
    (hnetloc : (urlsplit (String.mk (pyStrip s1.data))).netloc
      = (urlsplit (String.mk (pyStrip s2.data))).netloc)
    (hpath : (urlsplit (String.mk (pyStrip s1.data))).path
      = (urlsplit (String.mk (pyStrip s2.data))).path)
    (hperm : ((parse_qsl (urlsplit (String.mk (pyStrip s1.data))).query).filter
        keepPair).Perm
      ((parse_qsl (urlsplit (String.mk (pyStrip s2.data))).query).filter keepPair)) :
    stable_url_key s1 = stable_url_key s2 := by
  have hsorted : ((parse_qsl (urlsplit (String.mk (pyStrip s1.data))).query).filter
        keepPair).insertionSort pairLE
      = ((parse_qsl (urlsplit (String.mk (pyStrip s2.data))).query).filter
        keepPair).insertionSort pairLE :=
    List.eq_of_perm_of_sorted
      ((List.perm_insertionSort _ _).trans (hperm.trans (List.perm_insertionSort _ _).symm))
      (List.sorted_insertionSort _ _) (List.sorted_insertionSort _ _)
  have hnorm : normalize_url s1 = normalize_url s2 := by
    unfold normalize_url
    rw [hscheme, hnetloc, hpath, hsorted]
  unfold stable_url_key
  rw [hnorm]

/-- Witness for C8 at the spec example: a tracking parameter added to an
otherwise identical URL. -/
theorem c8_stable_url_key_tracking_invariant_witness :
    (urlsplit (String.mk (pyStrip "https://x.com/a?x=1&utm_source=z".data))).scheme
      = (urlsplit (String.mk (pyStrip "https://x.com/a?x=1".data))).scheme ∧
    ((parse_qsl (urlsplit (String.mk
        (pyStrip "https://x.com/a?x=1&utm_source=z".data))).query).filter
      keepPair).Perm
      ((parse_qsl (urlsplit (String.mk
        (pyStrip "https://x.com/a?x=1".data))).query).filter keepPair) ∧
    stable_url_key "https://x.com/a?x=1&utm_source=z" = stable_url_key "https://x.com/a?x=1" := by
  refine ⟨by decide, by decide, ?_⟩
  exact c8_stable_url_key_tracking_invariant
    "https://x.com/a?x=1&utm_source=z" "https://x.com/a?x=1"
    (by decide) (by decide) (by decide) (by decide)

lemma record_x_post_mem (posts : List XPostRow) (row : XPostRow) (force : Bool)
    (h : ((x_post_for_date posts row.post_date_jst).isSome && !force) = false) :
    ∃ posts', record_x_post posts row force = .ok posts' ∧ row ∈ posts' := by
  cases force with
  | true =>
    rcases hex : (x_post_for_date posts row.post_date_jst).isSome with _ | _
    · exact ⟨posts ++ [row], by simp [record_x_post, hex], by simp⟩
    · have hfind : ∃ r ∈ posts, (fun r => r.post_date_jst == row.post_date_jst) r := by
        rw [← List.find?_isSome]
        exact hex
      obtain ⟨r, hr, hrd⟩ := hfind
      simp only [beq_iff_eq] at hrd
      refine ⟨posts.map (fun q => if q.post_date_jst == row.post_date_jst then row else q),
        by simp [record_x_post, hex], ?_⟩
      exact List.mem_map.mpr ⟨r, hr, by simp [hrd]⟩
  | false =>
    have hex : (x_post_for_date posts row.post_date_jst).isSome = false := by
      simpa using h
    exact ⟨posts ++ [row], by simp [record_x_post, hex], by simp⟩

/-- C1: when a Post row already exists for the JST date and `force` is
off, `publish_x_post` returns status "skipped" with the skipped flag
set, writes exactly one receipt (the skipped receipt), leaves the
`x_posts` table unchanged, and makes zero external HTTP calls. -/
theorem c1_publish_second_attempt_skipped (posts : List XPostRow)
    (drafts : List XDraftRow) (draftFile : Option String)
    (draft_dir receipt_dir mode post_date_jst posted_at : String)
    (webhook_url xuser xapp bearer lp : String) (dry_run live : Bool)
    (omr : String) (httpOutcome : Except String (Option String × String))
    (hmode : SUPPORTED_MODES.contains mode = true)
    (hpolicy : SUPPORTED_MISSING_ROUTE_POLICIES.contains omr = true)
    (hboth : (dry_run && live) = false)
    (hexists : (x_post_for_date posts post_date_jst).isSome = true) :
    ∃ r, publish_x_post posts drafts draftFile draft_dir receipt_dir mode
        post_date_jst posted_at false webhook_url xuser xapp bearer lp
        dry_run live omr httpOutcome
      = ⟨.ok r, posts,
          [⟨receipt_dir ++ "/" ++ post_date_jst ++ "-" ++ mode ++ "-skipped.json",
            "skipped", some "already posted"⟩], 0⟩ ∧
      r.status = "skipped" ∧ r.skipped = true := by
  unfold publish_x_post
  simp only [hmode, hpolicy, hboth, hexists, Bool.not_true, Bool.false_eq_true,
    if_false, Bool.not_false, Bool.and_true, if_true]
  exact ⟨_, rfl, rfl, rfl⟩

/-- Witness for C1 at a concrete input: a second manual-mode publish on
a date that already has a Post row. -/
theorem c1_publish_second_attempt_skipped_witness :
    (x_post_for_date
        [{ post_date_jst := "2026-02-16", posted_at := "t", mode := "manual",
           route := "manual", status := "manual_ready", draft_id := none,
           text_hash := none, post_id := none, failure_reason := none,
           response_id := none, response_body := none }] "2026-02-16").isSome = true ∧
    ∃ r, publish_x_post
        [{ post_date_jst := "2026-02-16", posted_at := "t", mode := "manual",
           route := "manual", status := "manual_ready", draft_id := none,
           text_hash := none, post_id := none, failure_reason := none,
           response_id := none, response_body := none }]
        [] none "drafts" "receipts" "manual" "2026-02-16" "t2" false
        "" "" "" "" "" false false "fail" (.error "no call")
      = ⟨.ok r,
          [{ post_date_jst := "2026-02-16", posted_at := "t", mode := "manual",
             route := "manual", status := "manual_ready", draft_id := none,
             text_hash := none, post_id := none, failure_reason := none,
             response_id := none, response_body := none }],
          [⟨"receipts" ++ "/" ++ "2026-02-16" ++ "-" ++ "manual" ++ "-skipped.json",
            "skipped", some "already posted"⟩], 0⟩ ∧
      r.status = "skipped" ∧ r.skipped = true := by
  refine ⟨by decide, ?_⟩
  exact c1_publish_second_attempt_skipped
    [{ post_date_jst := "2026-02-16", posted_at := "t", mode := "manual",
       route := "manual", status := "manual_ready", draft_id := none,
       text_hash := none, post_id := none, failure_reason := none,
       response_id := none, response_body := none }]
    [] none "drafts" "receipts" "manual" "2026-02-16" "t2"
    "" "" "" "" "" false false "fail" (.error "no call")
    (by decide) (by decide) (by decide) (by decide)

/-- C2: in a live (non-dry-run) run that reaches its single external
post call, if the call raises then a Post row for the day is recorded
with status "failed" and the failure reason truncated to 400
characters, no receipt is written, and the original error is re-raised
to the caller. -/
theorem c2_publish_failure_records_failed_row (posts : List XPostRow)
    (drafts : List XDraftRow) (draftFile : Option String)
    (draft_dir receipt_dir mode post_date_jst posted_at : String) (force : Bool)
    (webhook_url xuser xapp bearer lp : String) (live : Bool) (omr : String)
    (msg : String)
    (hmode : SUPPORTED_MODES.contains mode = true)
    (hpolicy : SUPPORTED_MISSING_ROUTE_POLICIES.contains omr = true)
    (hdup : ((x_post_for_date posts post_date_jst).isSome && !force) = false)
    (hmanual : mode ≠ "manual")
    (hroute :
      (resolveRoute mode webhook_url xuser (if xapp ≠ "" then xapp else bearer)).1 ≠ ""
      ∧ (resolveRoute mode webhook_url xuser
          (if xapp ≠ "" then xapp else bearer)).1 ≠ "manual")
    (hsafe : (validatePostText
        (loadDraftText draftFile (draft_dir ++ "/" ++ post_date_jst ++ ".txt")).1 lp).1
      = [] ∧
      (loadDraftText draftFile (draft_dir ++ "/" ++ post_date_jst ++ ".txt")).2 = none) :
    ∃ postsNew,
      publish_x_post posts drafts draftFile draft_dir receipt_dir mode
          post_date_jst posted_at force webhook_url xuser xapp bearer lp
          false live omr (.error msg)
        = ⟨.error (.external msg), postsNew, [], 1⟩ ∧
      ∃ row ∈ postsNew, row.post_date_jst = post_date_jst ∧ row.status = "failed" ∧
        row.failure_reason = some (msg.take 400) ∧
        row.response_body = some (msg.take 400) := by
  have hrow := record_x_post_mem posts
    { post_date_jst := post_date_jst, posted_at := posted_at, mode := mode,
      route := (if (resolveRoute mode webhook_url xuser
          (if xapp ≠ "" then xapp else bearer)).1 = "" then "none"
        else (resolveRoute mode webhook_url xuser
          (if xapp ≠ "" then xapp else bearer)).1),
      status := "failed",
      draft_id := (x_draft_for_date drafts post_date_jst).map (fun r => r.id),
      text_hash := (if (loadDraftText draftFile
          (draft_dir ++ "/" ++ post_date_jst ++ ".txt")).1 ≠ "" then
        some (sha256Hex (utf8Encode (loadDraftText draftFile
          (draft_dir ++ "/" ++ post_date_jst ++ ".txt")).1.data)) else none),
      post_id := none, failure_reason := some (msg.take 400),
      response_id := none, response_body := some (msg.take 400) } force hdup
  obtain ⟨posts', hrec, hmem⟩ := hrow
  have hswap : (if xapp ≠ "" then xapp else bearer) = (if xapp = "" then bearer else xapp) := by
    by_cases hx : xapp = "" <;> simp [hx]
  have hroute' := hroute
  rw [hswap] at hroute'
  have hrec' := hrec
  rw [hswap] at hrec'
  have hmem' := hmem
  rw [hswap] at hmem'
  have hnr : ¬((resolveRoute mode webhook_url xuser
      (if xapp = "" then bearer else xapp)).1 = "" ∧ ¬ mode = "manual") := by
    rintro ⟨h1, _⟩
    exact hroute'.1 h1
  have hman : ¬(mode = "manual" ∨ (resolveRoute mode webhook_url xuser
      (if xapp = "" then bearer else xapp)).1 = "manual") := by
    rintro (h | h)
    · exact hmanual h
    · exact hroute'.2 h
  refine ⟨posts', ?_, ?_⟩
  · unfold publish_x_post
    simp only [hswap, hmode, hpolicy, hdup, hsafe.1, hsafe.2, hnr, hman,
      Bool.not_true, Bool.false_eq_true, if_false, Bool.false_and, Bool.and_false,
      ne_eq, List.nil_append, List.append_nil, ite_true, ite_false, not_false_eq_true,
      not_true_eq_false]
    simp only [ne_eq] at hrec'
    simp only [hrec']
  · simp only [ne_eq] at hmem'
    exact ⟨_, hmem', rfl, rfl, rfl, rfl⟩


/-- Witness for C2 at a concrete input: a live webhook publish whose
external call raises. -/
theorem c2_publish_failure_records_failed_row_witness :
    ((x_post_for_date [] "2026-02-16").isSome && !false) = false ∧
    (validatePostText
      (loadDraftText (some "hello world") ("drafts" ++ "/" ++ "2026-02-16" ++ ".txt")).1
      "").1 = [] ∧
    ∃ postsNew,
      publish_x_post [] [] (some "hello world") "drafts" "receipts" "webhook"
          "2026-02-16" "t" false "https://example.com/hook" "" "" "" ""
          false true "fail" (.error "webhook timeout")
        = ⟨.error (.external "webhook timeout"), postsNew, [], 1⟩ ∧
      ∃ row ∈ postsNew, row.post_date_jst = "2026-02-16" ∧ row.status = "failed" ∧
        row.failure_reason = some (String.take "webhook timeout" 400) ∧
        row.response_body = some (String.take "webhook timeout" 400) := by
  refine ⟨by decide, by decide, ?_⟩
  exact c2_publish_failure_records_failed_row [] [] (some "hello world")
    "drafts" "receipts" "webhook" "2026-02-16" "t" false
    "https://example.com/hook" "" "" "" "" true "fail" "webhook timeout"
    (by decide) (by decide) (by decide) (by decide) (by decide) ⟨by decide, by decide⟩


lemma string_append_newline_ne (s : String) : s ++ "\n" ≠ s := by
  intro h
  have hl := congrArg String.length h
  rw [String.length_append] at hl
  have hone : ("\n" : String).length = 1 := rfl
  rw [hone] at hl
  omega

lemma record_x_draft_fresh (drafts : List XDraftRow) (d g : String)
    (tn ic : Nat) (lp c : String)
    (h : has_x_draft_for_date drafts d = false) :
    record_x_draft drafts d g tn ic lp c false =
      .ok (drafts ++ [freshDraftRow drafts d g tn ic lp c]) := by
  have hf : drafts.find? (fun r => r.post_date_jst == d) = none := by
    rw [List.find?_eq_none]
    intro x hx
    unfold has_x_draft_for_date at h
    rw [List.any_eq_false] at h
    exact h x hx
  unfold record_x_draft x_draft_for_date
  rw [hf]
  simp [freshDraftRow]

/-- C9, counterexample: generate a draft for 2026-02-16 on an empty
store, then call again for the date without force.  The second call
skips, but its content is the written file's content — the first call's
content plus the trailing newline added on write — and so is not
identical to the first call's content. -/
theorem c9_generate_x_draft_counterexample :
    generate_x_draft [] [] [] none "out" "https://example.com/lp" 5
        "2026-02-16" "s" "e" "g" false
      = .ok ({ post_date_jst := "2026-02-16",
               output_path := "out/2026-02-16.txt", content := c9Content,
               item_count := 0, skipped := false },
             [c9Draft], some (c9Content ++ "\n")) ∧
    generate_x_draft [c9Draft] [] [] (some (c9Content ++ "\n")) "out"
        "https://example.com/lp" 5 "2026-02-16" "s" "e" "g" false
      = .ok ({ post_date_jst := "2026-02-16",
               output_path := "out/2026-02-16.txt",
               content := c9Content ++ "\n", item_count := 0, skipped := true },
             [c9Draft], some (c9Content ++ "\n")) ∧
    c9Content ++ "\n" ≠ c9Content := by
  refine ⟨rfl, rfl, by decide⟩

/-- C9 (amended): starting from a date with no stored draft, after one
`generate_x_draft` run without force, a second run for the date without
force — whatever its store rows and settings — skips and returns the
written file's content, which is the first run's content plus a
trailing newline (hence not identical to it); a run with force instead
regenerates (given the same window, tables and settings, the same
content) and overwrites the stored draft row for the date in place. -/
theorem c9_generate_x_draft_second_call (drafts : List XDraftRow)
    (items items2 : List ItemRow) (deliveries deliveries2 : List DeliveryRow)
    (outputFile : Option String) (output_dir lp_url lp_url2 : String)
    (top_n top_n2 : Int)
    (post_date_jst start_utc end_utc generated_at start2 end2 gen2 gen3 : String)
    (r1 : XDraftResult) (drafts1 : List XDraftRow) (file1 : Option String)
    (hnew : has_x_draft_for_date drafts post_date_jst = false)
    (hfirst : generate_x_draft drafts items deliveries outputFile output_dir
      lp_url top_n post_date_jst start_utc end_utc generated_at false
      = .ok (r1, drafts1, file1)) :
    generate_x_draft drafts1 items2 deliveries2 file1 output_dir lp_url2
        top_n2 post_date_jst start2 end2 gen2 false
      = .ok ({ post_date_jst := post_date_jst,
               output_path := output_dir ++ "/" ++ post_date_jst ++ ".txt",
               content := r1.content ++ "\n", item_count := 0,
               skipped := true }, drafts1, file1) ∧
    r1.content ++ "\n" ≠ r1.content ∧
    ∃ out3, generate_x_draft drafts1 items deliveries file1 output_dir lp_url
        top_n post_date_jst start_utc end_utc gen3 true = .ok out3 ∧
      out3.1.skipped = false ∧ out3.1.content = r1.content ∧
      ∃ row, row ∈ out3.2.1 ∧ row.post_date_jst = post_date_jst ∧
        row.content = r1.content ∧ row.generated_at = gen3 := by
  unfold generate_x_draft at hfirst
  rw [hnew] at hfirst
  simp only [Bool.false_and, Bool.false_eq_true, if_false] at hfirst
  cases htop : top_delivered_items items deliveries start_utc end_utc
      (max (top_n * 3) top_n) with
  | error e => rw [htop] at hfirst; simp at hfirst
  | ok cands =>
  rw [htop] at hfirst
  simp only [] at hfirst
  cases hbuild : build_x_post_content post_date_jst cands top_n lp_url with
  | error e => rw [hbuild] at hfirst; simp at hfirst
  | ok pr =>
  rw [hbuild] at hfirst
  simp only [] at hfirst
  cases hrec : record_x_draft drafts post_date_jst generated_at top_n.toNat
      pr.2 lp_url pr.1 false with
  | error e => rw [hrec] at hfirst; simp at hfirst
  | ok d2 =>
  rw [hrec] at hfirst
  simp only [] at hfirst
  have h2 := record_x_draft_fresh drafts post_date_jst generated_at
    top_n.toNat pr.2 lp_url pr.1 hnew
  rw [hrec] at h2
  have hd2 : d2 = drafts ++
      [freshDraftRow drafts post_date_jst generated_at top_n.toNat pr.2
        lp_url pr.1] := by
    simpa using h2
  subst hd2
  simp only [Except.ok.injEq, Prod.mk.injEq] at hfirst
  obtain ⟨hr1, hdr, hf1⟩ := hfirst
  subst hr1
  subst hf1
  subst hdr
  have hhas1 : has_x_draft_for_date (drafts ++
      [freshDraftRow drafts post_date_jst generated_at top_n.toNat pr.2
        lp_url pr.1]) post_date_jst = true := by
    simp [has_x_draft_for_date, List.any_append, freshDraftRow]
  refine ⟨?_, string_append_newline_ne _, ?_⟩
  · unfold generate_x_draft
    simp only [hhas1, Bool.not_false, Bool.and_self, if_true, Option.getD_some]
  · have hfind : ((drafts ++
        [freshDraftRow drafts post_date_jst generated_at top_n.toNat pr.2
          lp_url pr.1]).find?
        (fun r => r.post_date_jst == post_date_jst)).isSome = true := by
      rw [List.find?_isSome]
      refine ⟨_, List.mem_append_right _ (List.mem_singleton.mpr rfl), ?_⟩
      simp [freshDraftRow]
    have hrec2 : record_x_draft (drafts ++
        [freshDraftRow drafts post_date_jst generated_at top_n.toNat pr.2
          lp_url pr.1]) post_date_jst gen3 top_n.toNat pr.2 lp_url pr.1 true
        = .ok (overwriteDrafts (drafts ++
            [freshDraftRow drafts post_date_jst generated_at top_n.toNat
              pr.2 lp_url pr.1]) post_date_jst gen3 top_n.toNat pr.2 lp_url
            pr.1) := by
      unfold record_x_draft x_draft_for_date overwriteDrafts
      simp only [hfind, if_true]
    refine ⟨((⟨post_date_jst, output_dir ++ "/" ++ post_date_jst ++ ".txt",
        pr.1, pr.2, false⟩ : XDraftResult),
      overwriteDrafts (drafts ++
        [freshDraftRow drafts post_date_jst generated_at top_n.toNat pr.2
          lp_url pr.1]) post_date_jst gen3 top_n.toNat pr.2 lp_url pr.1,
      some (pr.1 ++ "\n")), ?_, rfl, rfl, ?_⟩
    · unfold generate_x_draft
      simp only [hhas1, Bool.not_true, Bool.and_false, Bool.false_eq_true,
        if_false, htop, hbuild, hrec2]
    · refine ⟨_, List.mem_map.mpr
        ⟨_, List.mem_append_right _ (List.mem_singleton.mpr rfl), rfl⟩,
        ?_, ?_, ?_⟩
      · simp [freshDraftRow]
      · simp [freshDraftRow]
      · simp [freshDraftRow]

/-- Witness for C9 at a concrete input: the empty store, a generation
for 2026-02-16, then a skip without force and a regeneration with
force. -/
theorem c9_generate_x_draft_second_call_witness :
    has_x_draft_for_date [] "2026-02-16" = false ∧
    generate_x_draft [] [] [] none "out" "https://example.com/lp" 5
        "2026-02-16" "s" "e" "g" false
      = .ok (⟨"2026-02-16", "out/2026-02-16.txt", c9Content, 0, false⟩,
             [c9Draft], some (c9Content ++ "\n")) ∧
    (generate_x_draft [c9Draft] [] [] (some (c9Content ++ "\n")) "out"
         "https://example.com/lp" 5 "2026-02-16" "s" "e" "g2" false
       = .ok ({ post_date_jst := "2026-02-16",
                output_path := "out" ++ "/" ++ "2026-02-16" ++ ".txt",
                content := c9Content ++ "\n",
                item_count := 0, skipped := true },
              [c9Draft], some (c9Content ++ "\n")) ∧
     c9Content ++ "\n" ≠ c9Content ∧
     ∃ out3, generate_x_draft [c9Draft] [] [] (some (c9Content ++ "\n"))
         "out" "https://example.com/lp" 5 "2026-02-16" "s" "e" "g3" true
         = .ok out3 ∧ out3.1.skipped = false ∧ out3.1.content = c9Content ∧
       ∃ row, row ∈ out3.2.1 ∧ row.post_date_jst = "2026-02-16" ∧
         row.content = c9Content ∧ row.generated_at = "g3") := by
  refine ⟨by decide, rfl, ?_⟩
  exact c9_generate_x_draft_second_call [] [] [] [] [] none "out"
    "https://example.com/lp" "https://example.com/lp" 5 5 "2026-02-16" "s"
    "e" "g" "s" "e" "g2" "g3"
    ⟨"2026-02-16", "out/2026-02-16.txt", c9Content, 0, false⟩ [c9Draft]
    (some (c9Content ++ "\n")) (by decide) rfl

/-- C3, counterexample: a dry run sends no mail and records no
Delivery row, but the 30-day purge it performs deletes an old delivery
row, so the persistent delivery history is not left unchanged by the
run. -/
theorem c3_run_pipeline_counterexample :
    (run_pipeline [] [] [] [] [c3OldDelivery] [] "admin@example.com" false
        true 30 true "run-1" "d" c3Now (fun _ => none)).deliveries = [] ∧
    [c3OldDelivery] ≠ ([] : List DeliveryRow) ∧
    (run_pipeline [] [] [] [] [c3OldDelivery] [] "admin@example.com" false
        true 30 true "run-1" "d" c3Now (fun _ => none)).mailsSent = [] := by
  refine ⟨by decide, by decide, by decide⟩

/-- C3 (amended): a dry run sends no digest mail, reports the digest
as not sent, and writes no Delivery rows — after the run the deliveries
table is the old table minus exactly the rows older than the 30-day
purge cutoff (so no new row ever appears), the purge being the one
store mutation a preview still performs. -/
theorem c3_run_pipeline_dry_run (keywordSets : List KeywordSetConfig)
    (fetchedItems : List FeedItem) (failures : List SourceFailure)
    (itemsTable : List ItemRow) (deliveriesTable : List DeliveryRow)
    (subscribers : List SubscriberRow) (admin_email : String)
    (smtpConfigured : Bool) (max_total_items : Int) (send_admin_copy : Bool)
    (runId delivered_at : String) (now : PyDateTime)
    (mailOracle : String → Option String) (out : PipelineOutcome)
    (hmax : 0 < max_total_items)
    (hout : run_pipeline keywordSets fetchedItems failures itemsTable
      deliveriesTable subscribers admin_email smtpConfigured true
      max_total_items send_admin_copy runId delivered_at now mailOracle
      = out) :
    out.mailsSent = [] ∧
    (∃ res, out.result = .ok res ∧ res.digest_sent = false) ∧
    out.deliveries = deliveriesTable.filter
      (fun d => !strLt d.delivered_at (isoMinusDays now.iso 30)) ∧
    ∀ d, d ∈ out.deliveries → d ∈ deliveriesTable := by
  subst hout
  have hp : ∀ (its : List ItemRow), purgeOlderThan its deliveriesTable 30 now
      = .ok (its.filter (fun i =>
          !(strLt i.fetched_at (isoMinusDays now.iso 30) &&
            !((deliveriesTable.filter (fun d =>
                !strLt d.delivered_at (isoMinusDays now.iso 30))).any
              (fun d => d.item_id == i.id)))),
        deliveriesTable.filter (fun d =>
          !strLt d.delivered_at (isoMinusDays now.iso 30))) := by
    intro its
    unfold purgeOlderThan
    rw [if_neg (by omega : ¬ (30 : Int) ≤ 0)]
  unfold run_pipeline
  rw [if_neg (by omega : ¬ max_total_items ≤ 0)]
  simp only [hp, eq_self_iff_true, if_true]
  refine ⟨trivial, ⟨_, rfl, rfl⟩, trivial, ?_⟩
  intro d hd
  exact (List.mem_filter.mp hd).1

/-- Witness for C3 at a concrete input: a dry run over a store holding
one six-year-old delivery row. -/
theorem c3_run_pipeline_dry_run_witness :
    (0 : Int) < 30 ∧
    run_pipeline [] [] [] [] [c3OldDelivery] [] "admin@example.com" false
        true 30 true "run-1" "d" c3Now (fun _ => none) = c3Out ∧
    (c3Out.mailsSent = [] ∧
     (∃ res, c3Out.result = .ok res ∧ res.digest_sent = false) ∧
     c3Out.deliveries = [c3OldDelivery].filter
       (fun d => !strLt d.delivered_at (isoMinusDays c3Now.iso 30)) ∧
     ∀ d, d ∈ c3Out.deliveries → d ∈ [c3OldDelivery]) := by
  refine ⟨by decide, rfl, ?_⟩
  exact c3_run_pipeline_dry_run [] [] [] [] [c3OldDelivery] []
    "admin@example.com" false 30 true "run-1" "d" c3Now (fun _ => none)
    c3Out (by decide) rfl

end BidRss
